import Mathlib

set_option linter.unusedVariables false

/- Shallow embedding of the davinci-resolve-mcp adapter.

   The repository has two modules:
   resolve_api.py defines class ResolveAPI, which stores six optional handles
   (resolve, fusion, project_manager, current_project, media_storage, media_pool)
   and wraps each vendor scripting call behind a null-check guard;
   server.py defines the MCP resource and tool endpoints on top of it.

   Vendor objects are modelled as opaque handles; the behaviour of the vendor
   scripting API during a single endpoint invocation is modelled by an oracle
   record `Vendor` whose fields give the value each vendor method returns.
   Media-pool folders are modelled as a finite tree (the vendor guarantees a
   finite folder hierarchy), so the recursive folder walk in server.py is a
   structural recursion here.  Every adapter function additionally returns the
   list of vendor calls it performed, in order, as values of the `VCall` type,
   so that claims about which vendor calls happen (none, queries only, exactly
   one mutation) can be stated and proved. -/

structure ResolveHandle where
  id : Nat
deriving DecidableEq

structure PMHandle where
  id : Nat
deriving DecidableEq

structure MSHandle where
  id : Nat
deriving DecidableEq

structure FusionHandle where
  id : Nat
deriving DecidableEq

structure ProjectHandle where
  id : Nat
deriving DecidableEq

structure TimelineHandle where
  id : Nat
deriving DecidableEq

structure MediaPoolHandle where
  id : Nat
deriving DecidableEq

structure ClipHandle where
  id : Nat
deriving DecidableEq

structure ItemHandle where
  id : Nat
deriving DecidableEq

structure CompHandle where
  id : Nat
deriving DecidableEq

structure NodeHandle where
  id : Nat
deriving DecidableEq

/- A media-pool folder as the vendor presents it: GetName, GetClips and
   GetSubFolders read the three components. -/
inductive FolderTree where
  | node (name : String) (clips : List ClipHandle) (subs : List FolderTree)

def FolderTree.name : FolderTree → String
  | FolderTree.node n _ _ => n

def FolderTree.clips : FolderTree → List ClipHandle
  | FolderTree.node _ c _ => c

def FolderTree.subs : FolderTree → List FolderTree
  | FolderTree.node _ _ s => s

/- One vendor scripting-API call, as recorded in an endpoint's trace. -/
inductive VCall where
  | resolve_GetProjectManager (r : ResolveHandle)
  | resolve_GetMediaStorage (r : ResolveHandle)
  | resolve_Fusion (r : ResolveHandle)
  | resolve_OpenPage (r : ResolveHandle) (page : String)
  | pm_GetCurrentProject (pm : PMHandle)
  | pm_CreateProject (pm : PMHandle) (name : String)
  | pm_LoadProject (pm : PMHandle) (name : String)
  | project_GetName (p : ProjectHandle)
  | project_GetMediaPool (p : ProjectHandle)
  | project_GetTimelineCount (p : ProjectHandle)
  | project_GetCurrentTimeline (p : ProjectHandle)
  | project_GetTimelineByIndex (p : ProjectHandle) (i : Int)
  | project_SetCurrentTimeline (p : ProjectHandle) (t : TimelineHandle)
  | project_SaveProject (p : ProjectHandle)
  | timeline_GetName (t : TimelineHandle)
  | timeline_GetStartFrame (t : TimelineHandle)
  | timeline_GetEndFrame (t : TimelineHandle)
  | timeline_GetTrackCount (t : TimelineHandle) (kind : String)
  | timeline_GetItemsInTrack (t : TimelineHandle) (kind : String) (i : Int)
  | item_AddFusionComp (it : ItemHandle)
  | mp_GetRootFolder (mp : MediaPoolHandle)
  | mp_GetCurrentFolder (mp : MediaPoolHandle)
  | mp_CreateEmptyTimeline (mp : MediaPoolHandle) (name : String)
  | mp_CreateTimelineFromClips (mp : MediaPoolHandle) (name : String) (clips : List ClipHandle)
  | mp_AddSubFolder (mp : MediaPoolHandle) (parent : FolderTree) (name : String)
  | mp_AppendToTimeline (mp : MediaPoolHandle) (clips : List ClipHandle)
  | mp_ImportTimelineFromFile (mp : MediaPoolHandle) (path : String)
  | ms_GetMountedVolumes (ms : MSHandle)
  | ms_GetSubFolders (ms : MSHandle) (path : String)
  | ms_GetFiles (ms : MSHandle) (path : String)
  | ms_AddItemsToMediaPool (ms : MSHandle) (paths : List String)
  | folder_GetName (f : FolderTree)
  | folder_GetClips (f : FolderTree)
  | folder_GetSubFolders (f : FolderTree)
  | clip_GetName (c : ClipHandle)
  | fusion_Execute (fu : FusionHandle) (script : String)
  | fusion_CurrentComp (fu : FusionHandle)
  | comp_AddTool (c : CompHandle) (node_type : String)
  | node_SetInput (n : NodeHandle) (key : String) (value : String)
  | node_SetAttrsName (n : NodeHandle) (name : String)
  | node_ConnectInput (n : NodeHandle) (input : String) (src : NodeHandle)

/- Calls that change host-application state, as opposed to pure queries. -/
def VCall.isMutation : VCall → Bool
  | VCall.resolve_OpenPage _ _ => true
  | VCall.pm_CreateProject _ _ => true
  | VCall.pm_LoadProject _ _ => true
  | VCall.project_SetCurrentTimeline _ _ => true
  | VCall.project_SaveProject _ => true
  | VCall.mp_CreateEmptyTimeline _ _ => true
  | VCall.mp_CreateTimelineFromClips _ _ _ => true
  | VCall.mp_AddSubFolder _ _ _ => true
  | VCall.mp_AppendToTimeline _ _ => true
  | VCall.mp_ImportTimelineFromFile _ _ => true
  | VCall.ms_AddItemsToMediaPool _ _ => true
  | VCall.item_AddFusionComp _ => true
  | VCall.fusion_Execute _ _ => true
  | VCall.comp_AddTool _ _ => true
  | VCall.node_SetInput _ _ _ => true
  | VCall.node_SetAttrsName _ _ => true
  | VCall.node_ConnectInput _ _ _ => true
  | _ => false

def VCall.isSetCurrentTimeline : VCall → Bool
  | VCall.project_SetCurrentTimeline _ _ => true
  | _ => false

def VCall.isCreateTimelineFromClips : VCall → Bool
  | VCall.mp_CreateTimelineFromClips _ _ _ => true
  | _ => false

def VCall.isAddFusionComp : VCall → Bool
  | VCall.item_AddFusionComp _ => true
  | _ => false

/- The attribute state of a ResolveAPI instance (resolve_api.py, __init__). -/
structure ResolveAPI where
  resolve : Option ResolveHandle
  fusion : Option FusionHandle
  project_manager : Option PMHandle
  current_project : Option ProjectHandle
  media_storage : Option MSHandle
  media_pool : Option MediaPoolHandle
deriving DecidableEq

/- Oracle for the closed-source vendor API: each field gives the value the
   corresponding vendor method returns during the invocation being modelled.
   The exec of arbitrary Python code by the execute_python tool is abstracted
   as the uninterpreted oracle pythonExec (its effect on the adapter state and
   its vendor calls are environment-dependent and outside this repository). -/
structure Vendor where
  resolve_GetProjectManager : ResolveHandle → PMHandle
  resolve_GetMediaStorage : ResolveHandle → MSHandle
  resolve_Fusion : ResolveHandle → FusionHandle
  resolve_OpenPage : ResolveHandle → String → Bool
  pm_GetCurrentProject : PMHandle → Option ProjectHandle
  pm_CreateProject : PMHandle → String → Option ProjectHandle
  pm_LoadProject : PMHandle → String → Option ProjectHandle
  project_GetName : ProjectHandle → String
  project_GetMediaPool : ProjectHandle → Option MediaPoolHandle
  project_GetTimelineCount : ProjectHandle → Nat
  project_GetCurrentTimeline : ProjectHandle → Option TimelineHandle
  project_GetTimelineByIndex : ProjectHandle → Int → Option TimelineHandle
  project_SetCurrentTimeline : ProjectHandle → TimelineHandle → Bool
  project_SaveProject : ProjectHandle → Bool
  timeline_GetName : TimelineHandle → String
  timeline_GetStartFrame : TimelineHandle → Int
  timeline_GetEndFrame : TimelineHandle → Int
  timeline_GetTrackCount : TimelineHandle → String → Nat
  timeline_GetItemsInTrack : TimelineHandle → String → Int → List ItemHandle
  item_AddFusionComp : ItemHandle → Option CompHandle
  mp_GetRootFolder : MediaPoolHandle → Option FolderTree
  mp_GetCurrentFolder : MediaPoolHandle → Option FolderTree
  mp_CreateEmptyTimeline : MediaPoolHandle → String → Option TimelineHandle
  mp_CreateTimelineFromClips : MediaPoolHandle → String → List ClipHandle → Option TimelineHandle
  mp_AddSubFolder : MediaPoolHandle → FolderTree → String → Option FolderTree
  mp_AppendToTimeline : MediaPoolHandle → List ClipHandle → Bool
  mp_ImportTimelineFromFile : MediaPoolHandle → String → Option TimelineHandle
  ms_GetMountedVolumes : MSHandle → List String
  ms_GetSubFolders : MSHandle → String → List String
  ms_GetFiles : MSHandle → String → List String
  ms_AddItemsToMediaPool : MSHandle → List String → List ClipHandle
  clip_GetName : ClipHandle → String
  fusion_Execute : FusionHandle → String → Option String
  fusion_CurrentComp : FusionHandle → Option CompHandle
  comp_AddTool : CompHandle → String → Option NodeHandle
  pythonExec : String → ResolveAPI → String × ResolveAPI × List VCall

/- Python `x or default` on an optional string: None and the empty string are
   falsy, so both fall through to the default. -/
def optStrOr (o : Option String) (d : String) : String :=
  match o with
  | some s => if s = "" then d else s
  | none => d

/- Python str.lower, modelled as per-character lowercasing of the string. -/
def pyLower (s : String) : String :=
  String.mk (s.data.map Char.toLower)

/- Python str.capitalize: first character uppercased, the rest lowercased. -/
def pyCapitalize (s : String) : String :=
  match (pyLower s).data with
  | [] => ""
  | c :: rest => String.mk (Char.toUpper c :: rest)

/- Python enumerate(xs, i). -/
def enumFrom (i : Nat) : List α → List (Nat × α)
  | [] => []
  | x :: xs => (i, x) :: enumFrom (i + 1) xs

/- ResolveAPI methods (resolve_api.py).  Each returns its Python result
   together with the vendor calls it made; the two methods that reassign
   attributes (get_current_project, get_media_pool) and the two that set
   current_project and media_pool on success (create_project, load_project)
   also return the updated adapter state. -/

def ResolveAPI.is_connected (a : ResolveAPI) : Bool :=
  a.resolve.isSome

def ResolveAPI.get_project_manager (a : ResolveAPI) : Option PMHandle :=
  a.project_manager

def ResolveAPI.get_current_project (v : Vendor) (a : ResolveAPI) :
    Option ProjectHandle × ResolveAPI × List VCall :=
  match a.project_manager with
  | none => (a.current_project, a, [])
  | some pm =>
      let p := v.pm_GetCurrentProject pm
      (p, { a with current_project := p }, [VCall.pm_GetCurrentProject pm])

def ResolveAPI.get_media_storage (a : ResolveAPI) : Option MSHandle :=
  a.media_storage

def ResolveAPI.get_media_pool (v : Vendor) (a : ResolveAPI) :
    Option MediaPoolHandle × ResolveAPI × List VCall :=
  match a.current_project with
  | none => (a.media_pool, a, [])
  | some p =>
      let mp := v.project_GetMediaPool p
      (mp, { a with media_pool := mp }, [VCall.project_GetMediaPool p])

def ResolveAPI.get_fusion (a : ResolveAPI) : Option FusionHandle :=
  a.fusion

def valid_pages : List String :=
  ["media", "edit", "fusion", "color", "fairlight", "deliver"]

def ResolveAPI.open_page (v : Vendor) (a : ResolveAPI) (page_name : String) :
    Bool × List VCall :=
  match a.resolve with
  | none => (false, [])
  | some r =>
      if (pyLower page_name) ∈ valid_pages then
        (true, [VCall.resolve_OpenPage r (pyLower page_name)])
      else
        (false, [])

def ResolveAPI.create_project (v : Vendor) (a : ResolveAPI) (project_name : String) :
    Bool × ResolveAPI × List VCall :=
  match a.project_manager with
  | none => (false, a, [])
  | some pm =>
      match v.pm_CreateProject pm project_name with
      | some p =>
          (true,
           { a with current_project := some p, media_pool := v.project_GetMediaPool p },
           [VCall.pm_CreateProject pm project_name, VCall.project_GetMediaPool p])
      | none => (false, a, [VCall.pm_CreateProject pm project_name])

def ResolveAPI.load_project (v : Vendor) (a : ResolveAPI) (project_name : String) :
    Bool × ResolveAPI × List VCall :=
  match a.project_manager with
  | none => (false, a, [])
  | some pm =>
      match v.pm_LoadProject pm project_name with
      | some p =>
          (true,
           { a with current_project := some p, media_pool := v.project_GetMediaPool p },
           [VCall.pm_LoadProject pm project_name, VCall.project_GetMediaPool p])
      | none => (false, a, [VCall.pm_LoadProject pm project_name])

def ResolveAPI.save_project (v : Vendor) (a : ResolveAPI) : Bool × List VCall :=
  match a.current_project with
  | none => (false, [])
  | some p => (v.project_SaveProject p, [VCall.project_SaveProject p])

def ResolveAPI.get_project_name (v : Vendor) (a : ResolveAPI) :
    Option String × List VCall :=
  match a.current_project with
  | none => (none, [])
  | some p => (some (v.project_GetName p), [VCall.project_GetName p])

def ResolveAPI.create_timeline (v : Vendor) (a : ResolveAPI) (timeline_name : String) :
    Bool × List VCall :=
  match a.media_pool with
  | none => (false, [])
  | some mp =>
      ((v.mp_CreateEmptyTimeline mp timeline_name).isSome,
       [VCall.mp_CreateEmptyTimeline mp timeline_name])

def ResolveAPI.get_current_timeline (v : Vendor) (a : ResolveAPI) :
    Option TimelineHandle × List VCall :=
  match a.current_project with
  | none => (none, [])
  | some p => (v.project_GetCurrentTimeline p, [VCall.project_GetCurrentTimeline p])

def ResolveAPI.get_timeline_count (v : Vendor) (a : ResolveAPI) : Nat × List VCall :=
  match a.current_project with
  | none => (0, [])
  | some p => (v.project_GetTimelineCount p, [VCall.project_GetTimelineCount p])

def ResolveAPI.get_timeline_by_index (v : Vendor) (a : ResolveAPI) (index : Int) :
    Option TimelineHandle × List VCall :=
  match a.current_project with
  | none => (none, [])
  | some p => (v.project_GetTimelineByIndex p index, [VCall.project_GetTimelineByIndex p index])

def ResolveAPI.set_current_timeline (v : Vendor) (a : ResolveAPI) (timeline : TimelineHandle) :
    Bool × List VCall :=
  match a.current_project with
  | none => (false, [])
  | some p => (v.project_SetCurrentTimeline p timeline, [VCall.project_SetCurrentTimeline p timeline])

def ResolveAPI.get_mounted_volumes (v : Vendor) (a : ResolveAPI) :
    List String × List VCall :=
  match a.media_storage with
  | none => ([], [])
  | some ms => (v.ms_GetMountedVolumes ms, [VCall.ms_GetMountedVolumes ms])

def ResolveAPI.get_sub_folders (v : Vendor) (a : ResolveAPI) (folder_path : String) :
    List String × List VCall :=
  match a.media_storage with
  | none => ([], [])
  | some ms => (v.ms_GetSubFolders ms folder_path, [VCall.ms_GetSubFolders ms folder_path])

def ResolveAPI.get_files (v : Vendor) (a : ResolveAPI) (folder_path : String) :
    List String × List VCall :=
  match a.media_storage with
  | none => ([], [])
  | some ms => (v.ms_GetFiles ms folder_path, [VCall.ms_GetFiles ms folder_path])

def ResolveAPI.add_items_to_media_pool (v : Vendor) (a : ResolveAPI) (file_paths : List String) :
    List ClipHandle × List VCall :=
  match a.media_storage, a.media_pool with
  | some ms, some _ => (v.ms_AddItemsToMediaPool ms file_paths, [VCall.ms_AddItemsToMediaPool ms file_paths])
  | _, _ => ([], [])

def ResolveAPI.get_root_folder (v : Vendor) (a : ResolveAPI) :
    Option FolderTree × List VCall :=
  match a.media_pool with
  | none => (none, [])
  | some mp => (v.mp_GetRootFolder mp, [VCall.mp_GetRootFolder mp])

def ResolveAPI.get_current_folder (v : Vendor) (a : ResolveAPI) :
    Option FolderTree × List VCall :=
  match a.media_pool with
  | none => (none, [])
  | some mp => (v.mp_GetCurrentFolder mp, [VCall.mp_GetCurrentFolder mp])

def ResolveAPI.add_sub_folder (v : Vendor) (a : ResolveAPI) (parent_folder : FolderTree)
    (folder_name : String) : Option FolderTree × List VCall :=
  match a.media_pool with
  | none => (none, [])
  | some mp => (v.mp_AddSubFolder mp parent_folder folder_name,
                [VCall.mp_AddSubFolder mp parent_folder folder_name])

def ResolveAPI.get_folder_clips (v : Vendor) (folder : Option FolderTree) :
    List ClipHandle × List VCall :=
  match folder with
  | none => ([], [])
  | some f => (f.clips, [VCall.folder_GetClips f])

def ResolveAPI.get_folder_name (v : Vendor) (folder : Option FolderTree) :
    Option String × List VCall :=
  match folder with
  | none => (none, [])
  | some f => (some f.name, [VCall.folder_GetName f])

def ResolveAPI.get_folder_sub_folders (v : Vendor) (folder : Option FolderTree) :
    List FolderTree × List VCall :=
  match folder with
  | none => ([], [])
  | some f => (f.subs, [VCall.folder_GetSubFolders f])

def ResolveAPI.append_to_timeline (v : Vendor) (a : ResolveAPI) (clips : List ClipHandle) :
    Bool × List VCall :=
  match a.media_pool with
  | none => (false, [])
  | some mp => (v.mp_AppendToTimeline mp clips, [VCall.mp_AppendToTimeline mp clips])

def ResolveAPI.create_timeline_from_clips (v : Vendor) (a : ResolveAPI)
    (timeline_name : String) (clips : List ClipHandle) :
    Option TimelineHandle × List VCall :=
  match a.media_pool with
  | none => (none, [])
  | some mp => (v.mp_CreateTimelineFromClips mp timeline_name clips,
                [VCall.mp_CreateTimelineFromClips mp timeline_name clips])

def ResolveAPI.import_timeline_from_file (v : Vendor) (a : ResolveAPI) (file_path : String) :
    Option TimelineHandle × List VCall :=
  match a.media_pool with
  | none => (none, [])
  | some mp => (v.mp_ImportTimelineFromFile mp file_path,
                [VCall.mp_ImportTimelineFromFile mp file_path])

def ResolveAPI.execute_lua (v : Vendor) (a : ResolveAPI) (script : String) :
    Option String × List VCall :=
  match a.fusion with
  | none => (none, [])
  | some fu => (v.fusion_Execute fu script, [VCall.fusion_Execute fu script])

/- Fusion node input dictionaries: Python passes Dict[str, Any]; values are
   abstracted as strings here (they are only ever passed through). A value of
   none models Python None; like an empty dict it is falsy. -/
def FusionInputs := Option (List (String × String))

def fusionInputsTruthy : FusionInputs → Bool
  | none => false
  | some l => !l.isEmpty

def ResolveAPI.create_fusion_node (v : Vendor) (a : ResolveAPI)
    (comp : Option CompHandle) (node_type : String) (inputs : FusionInputs) :
    Option NodeHandle × List VCall :=
  match a.fusion, comp with
  | some _, some c =>
      (match v.comp_AddTool c node_type with
       | some node =>
           if fusionInputsTruthy inputs then
             (some node,
              VCall.comp_AddTool c node_type ::
                (inputs.getD []).map (fun kv => VCall.node_SetInput node kv.1 kv.2))
           else
             (some node, [VCall.comp_AddTool c node_type])
       | none => (none, [VCall.comp_AddTool c node_type]))
  | _, _ => (none, [])

def ResolveAPI.get_current_comp (v : Vendor) (a : ResolveAPI) :
    Option CompHandle × List VCall :=
  match a.fusion with
  | none => (none, [])
  | some fu => (v.fusion_CurrentComp fu, [VCall.fusion_CurrentComp fu])

/- Result of one MCP endpoint invocation: the returned text, the adapter
   state after the call, and the vendor calls performed, in order. -/
structure EndpointResult where
  text : String
  state : ResolveAPI
  calls : List VCall

def errNotConnected : String :=
  "Error: Not connected to DaVinci Resolve."

/- server.py endpoints live in namespace Server (several share their name
   with the ResolveAPI method they wrap). -/

namespace Server

def statusNotConnectedText : String :=
  "\n        DaVinci Resolve Status:\n        - Connection: Not connected\n        - Error: DaVinci Resolve is not running or not accessible\n        "

def statusConnectedText (project_name timeline_name : String) : String :=
  "\n        DaVinci Resolve Status:\n        - Connection: Connected\n        - Current Project: " ++ project_name ++ "\n        - Current Timeline: " ++ timeline_name ++ "\n        "

def get_system_status (v : Vendor) (a : ResolveAPI) : EndpointResult :=
  if a.is_connected then
    let pn := ResolveAPI.get_project_name v a
    let project_name := optStrOr pn.1 "No project open"
    let tl := ResolveAPI.get_current_timeline v a
    match tl.1 with
    | some t =>
        { text := statusConnectedText project_name (v.timeline_GetName t),
          state := a,
          calls := pn.2 ++ tl.2 ++ [VCall.timeline_GetName t] }
    | none =>
        { text := statusConnectedText project_name "No timeline open",
          state := a,
          calls := pn.2 ++ tl.2 }
  else
    { text := statusNotConnectedText, state := a, calls := [] }

def get_current_project (v : Vendor) (a : ResolveAPI) : EndpointResult :=
  if !a.is_connected then
    { text := errNotConnected, state := a, calls := [] }
  else
    match ResolveAPI.get_current_project v a with
    | (none, a1, t1) => { text := "No project is currently open.", state := a1, calls := t1 }
    | (some project, a1, t1) =>
        let project_name := v.project_GetName project
        let timeline_count := v.project_GetTimelineCount project
        let ct := v.project_GetCurrentTimeline project
        let timeline_name := match ct with
          | some t => v.timeline_GetName t
          | none => "None"
        { text := "\n    Current Project: " ++ project_name ++ "\n    Timeline Count: " ++ toString timeline_count ++ "\n    Current Timeline: " ++ timeline_name ++ "\n    ",
          state := a1,
          calls := t1 ++ [VCall.project_GetName project, VCall.project_GetTimelineCount project, VCall.project_GetCurrentTimeline project] ++
            (match ct with
             | some t => [VCall.timeline_GetName t]
             | none => []) }

/- The loop in get_project_timelines: for i in range(1, timeline_count + 1),
   fetch the timeline at index i and, when present, list it by name. -/
def timelinesLoop (v : Vendor) (p : ProjectHandle) : Nat → Nat → List String × List VCall
  | _, 0 => ([], [])
  | i, Nat.succ rem =>
      let head : List String × List VCall :=
        match v.project_GetTimelineByIndex p (Int.ofNat i) with
        | some t => ([toString i ++ ". " ++ v.timeline_GetName t],
                     [VCall.project_GetTimelineByIndex p (Int.ofNat i), VCall.timeline_GetName t])
        | none => ([], [VCall.project_GetTimelineByIndex p (Int.ofNat i)])
      let rest := timelinesLoop v p (i + 1) rem
      (head.1 ++ rest.1, head.2 ++ rest.2)

def get_project_timelines (v : Vendor) (a : ResolveAPI) : EndpointResult :=
  if !a.is_connected then
    { text := errNotConnected, state := a, calls := [] }
  else
    match ResolveAPI.get_current_project v a with
    | (none, a1, t1) => { text := "No project is currently open.", state := a1, calls := t1 }
    | (some project, a1, t1) =>
        let timeline_count := v.project_GetTimelineCount project
        if timeline_count = 0 then
          { text := "No timelines in the current project.", state := a1,
            calls := t1 ++ [VCall.project_GetTimelineCount project] }
        else
          let loop := timelinesLoop v project 1 timeline_count
          { text := String.intercalate "\n" loop.1, state := a1,
            calls := t1 ++ [VCall.project_GetTimelineCount project] ++ loop.2 }

def get_current_timeline (v : Vendor) (a : ResolveAPI) : EndpointResult :=
  if !a.is_connected then
    { text := errNotConnected, state := a, calls := [] }
  else
    match ResolveAPI.get_current_project v a with
    | (none, a1, t1) => { text := "No project is currently open.", state := a1, calls := t1 }
    | (some project, a1, t1) =>
        match v.project_GetCurrentTimeline project with
        | none =>
            { text := "No timeline is currently open.", state := a1,
              calls := t1 ++ [VCall.project_GetCurrentTimeline project] }
        | some timeline =>
            let timeline_name := v.timeline_GetName timeline
            let start_frame := v.timeline_GetStartFrame timeline
            let end_frame := v.timeline_GetEndFrame timeline
            let duration := end_frame - start_frame + 1
            let video_track_count := v.timeline_GetTrackCount timeline "video"
            let audio_track_count := v.timeline_GetTrackCount timeline "audio"
            let subtitle_track_count := v.timeline_GetTrackCount timeline "subtitle"
            { text := "\n    Timeline: " ++ timeline_name ++ "\n    Duration: " ++ toString duration ++ " frames (" ++ toString start_frame ++ " - " ++ toString end_frame ++ ")\n    Video Tracks: " ++ toString video_track_count ++ "\n    Audio Tracks: " ++ toString audio_track_count ++ "\n    Subtitle Tracks: " ++ toString subtitle_track_count ++ "\n    ",
              state := a1,
              calls := t1 ++ [VCall.project_GetCurrentTimeline project,
                VCall.timeline_GetName timeline, VCall.timeline_GetStartFrame timeline,
                VCall.timeline_GetEndFrame timeline,
                VCall.timeline_GetTrackCount timeline "video",
                VCall.timeline_GetTrackCount timeline "audio",
                VCall.timeline_GetTrackCount timeline "subtitle"] }

/- The nested helper get_folder_structure in get_media_pool_folders:
   a depth-first walk listing each folder as "{indent}- {name}". -/
mutual

def get_folder_structure (folder : FolderTree) (indent : String) : List String × List VCall :=
  match folder with
  | FolderTree.node name clips subs =>
      let sub := folderStructureList subs (indent ++ "  ")
      ((indent ++ "- " ++ name) :: sub.1,
       VCall.folder_GetName (FolderTree.node name clips subs) ::
         VCall.folder_GetSubFolders (FolderTree.node name clips subs) :: sub.2)

def folderStructureList (folders : List FolderTree) (indent : String) : List String × List VCall :=
  match folders with
  | [] => ([], [])
  | f :: rest =>
      let a := get_folder_structure f indent
      let b := folderStructureList rest indent
      (a.1 ++ b.1, a.2 ++ b.2)

end

def get_media_pool_folders (v : Vendor) (a : ResolveAPI) : EndpointResult :=
  if !a.is_connected then
    { text := errNotConnected, state := a, calls := [] }
  else
    match ResolveAPI.get_media_pool v a with
    | (none, a1, t1) => { text := "No media pool available.", state := a1, calls := t1 }
    | (some media_pool, a1, t1) =>
        match v.mp_GetRootFolder media_pool with
        | none =>
            { text := "No root folder available.", state := a1,
              calls := t1 ++ [VCall.mp_GetRootFolder media_pool] }
        | some root_folder =>
            let walk := get_folder_structure root_folder ""
            { text := String.intercalate "\n" walk.1, state := a1,
              calls := t1 ++ [VCall.mp_GetRootFolder media_pool] ++ walk.2 }

/- The clip listing loop in get_current_media_pool_folder: enumerate(clips, 1),
   but once i passes 10 emit the "... and N more clips" line and stop. -/
def clipInfoLoop (v : Vendor) (clip_count : Nat) : List ClipHandle → Nat → List String × List VCall
  | [], _ => ([], [])
  | c :: rest, i =>
      if i > 10 then
        (["... and " ++ toString (clip_count - 10) ++ " more clips"], [])
      else
        let r := clipInfoLoop v clip_count rest (i + 1)
        ((toString i ++ ". " ++ v.clip_GetName c) :: r.1,
         VCall.clip_GetName c :: r.2)

def get_current_media_pool_folder (v : Vendor) (a : ResolveAPI) : EndpointResult :=
  if !a.is_connected then
    { text := errNotConnected, state := a, calls := [] }
  else
    match ResolveAPI.get_media_pool v a with
    | (none, a1, t1) => { text := "No media pool available.", state := a1, calls := t1 }
    | (some media_pool, a1, t1) =>
        match v.mp_GetCurrentFolder media_pool with
        | none =>
            { text := "No current folder available.", state := a1,
              calls := t1 ++ [VCall.mp_GetCurrentFolder media_pool] }
        | some current_folder =>
            let folder_name := current_folder.name
            let clips := current_folder.clips
            let clip_count := if clips.isEmpty then 0 else clips.length
            let loop := clipInfoLoop v clip_count clips 1
            let clips_text := if clip_count = 0 then "No clips in this folder." else String.intercalate "\n" loop.1
            { text := "Current Folder: " ++ folder_name ++ "\nClip Count: " ++ toString clip_count ++ "\nClips:\n" ++ clips_text,
              state := a1,
              calls := t1 ++ [VCall.mp_GetCurrentFolder media_pool,
                VCall.folder_GetName current_folder, VCall.folder_GetClips current_folder] ++ loop.2 }

def get_mounted_volumes (v : Vendor) (a : ResolveAPI) : EndpointResult :=
  if !a.is_connected then
    { text := errNotConnected, state := a, calls := [] }
  else
    match a.media_storage with
    | none => { text := "No media storage available.", state := a, calls := [] }
    | some media_storage =>
        let volumes := v.ms_GetMountedVolumes media_storage
        if volumes.isEmpty then
          { text := "No mounted volumes available.", state := a,
            calls := [VCall.ms_GetMountedVolumes media_storage] }
        else
          { text := String.intercalate "\n"
              ((enumFrom 1 volumes).map (fun pr => toString pr.1 ++ ". " ++ pr.2)),
            state := a,
            calls := [VCall.ms_GetMountedVolumes media_storage] }

end Server

namespace Server

def create_project (v : Vendor) (a : ResolveAPI) (name : String) : EndpointResult :=
  if !a.is_connected then
    { text := errNotConnected, state := a, calls := [] }
  else
    let r := ResolveAPI.create_project v a name
    if r.1 then
      { text := "Successfully created project \x27" ++ name ++ "\x27.", state := r.2.1, calls := r.2.2 }
    else
      { text := "Failed to create project \x27" ++ name ++ "\x27. The project may already exist.",
        state := r.2.1, calls := r.2.2 }

def load_project (v : Vendor) (a : ResolveAPI) (name : String) : EndpointResult :=
  if !a.is_connected then
    { text := errNotConnected, state := a, calls := [] }
  else
    let r := ResolveAPI.load_project v a name
    if r.1 then
      { text := "Successfully loaded project \x27" ++ name ++ "\x27.", state := r.2.1, calls := r.2.2 }
    else
      { text := "Failed to load project \x27" ++ name ++ "\x27. The project may not exist.",
        state := r.2.1, calls := r.2.2 }

def save_project (v : Vendor) (a : ResolveAPI) : EndpointResult :=
  if !a.is_connected then
    { text := errNotConnected, state := a, calls := [] }
  else
    match ResolveAPI.get_current_project v a with
    | (none, a1, t1) => { text := "No project is currently open.", state := a1, calls := t1 }
    | (some project, a1, t1) =>
        let s := ResolveAPI.save_project v a1
        if s.1 then
          { text := "Successfully saved project \x27" ++ v.project_GetName project ++ "\x27.",
            state := a1, calls := t1 ++ s.2 ++ [VCall.project_GetName project] }
        else
          { text := "Failed to save project \x27" ++ v.project_GetName project ++ "\x27.",
            state := a1, calls := t1 ++ s.2 ++ [VCall.project_GetName project] }

def create_timeline (v : Vendor) (a : ResolveAPI) (name : String) : EndpointResult :=
  if !a.is_connected then
    { text := errNotConnected, state := a, calls := [] }
  else
    match ResolveAPI.get_current_project v a with
    | (none, a1, t1) => { text := "No project is currently open.", state := a1, calls := t1 }
    | (some project, a1, t1) =>
        match ResolveAPI.get_media_pool v a1 with
        | (none, a2, t2) => { text := "No media pool available.", state := a2, calls := t1 ++ t2 }
        | (some media_pool, a2, t2) =>
            match v.mp_CreateEmptyTimeline media_pool name with
            | some timeline =>
                { text := "Successfully created timeline \x27" ++ name ++ "\x27.",
                  state := a2,
                  calls := t1 ++ t2 ++ [VCall.mp_CreateEmptyTimeline media_pool name,
                    VCall.project_SetCurrentTimeline project timeline] }
            | none =>
                { text := "Failed to create timeline \x27" ++ name ++ "\x27. The timeline may already exist.",
                  state := a2,
                  calls := t1 ++ t2 ++ [VCall.mp_CreateEmptyTimeline media_pool name] }

def set_current_timeline (v : Vendor) (a : ResolveAPI) (index : Int) : EndpointResult :=
  if !a.is_connected then
    { text := errNotConnected, state := a, calls := [] }
  else
    match ResolveAPI.get_current_project v a with
    | (none, a1, t1) => { text := "No project is currently open.", state := a1, calls := t1 }
    | (some project, a1, t1) =>
        let timeline_count := v.project_GetTimelineCount project
        if index < 1 ∨ index > (timeline_count : Int) then
          { text := "Invalid timeline index. Valid range is 1-" ++ toString timeline_count ++ ".",
            state := a1, calls := t1 ++ [VCall.project_GetTimelineCount project] }
        else
          match v.project_GetTimelineByIndex project index with
          | none =>
              { text := "Failed to get timeline at index " ++ toString index ++ ".",
                state := a1,
                calls := t1 ++ [VCall.project_GetTimelineCount project,
                  VCall.project_GetTimelineByIndex project index] }
          | some timeline =>
              let success := v.project_SetCurrentTimeline project timeline
              let base := t1 ++ [VCall.project_GetTimelineCount project,
                VCall.project_GetTimelineByIndex project index,
                VCall.project_SetCurrentTimeline project timeline,
                VCall.timeline_GetName timeline]
              if success then
                { text := "Successfully set current timeline to \x27" ++ v.timeline_GetName timeline ++ "\x27.",
                  state := a1, calls := base }
              else
                { text := "Failed to set current timeline to \x27" ++ v.timeline_GetName timeline ++ "\x27.",
                  state := a1, calls := base }

def import_media (v : Vendor) (a : ResolveAPI) (file_paths : List String) : EndpointResult :=
  if !a.is_connected then
    { text := errNotConnected, state := a, calls := [] }
  else
    match a.media_storage with
    | none => { text := "No media storage available.", state := a, calls := [] }
    | some media_storage =>
        match ResolveAPI.get_media_pool v a with
        | (none, a1, t1) => { text := "No media pool available.", state := a1, calls := t1 }
        | (some _, a1, t1) =>
            let clips := v.ms_AddItemsToMediaPool media_storage file_paths
            if !clips.isEmpty then
              { text := "Successfully imported " ++ toString clips.length ++ " media files.",
                state := a1, calls := t1 ++ [VCall.ms_AddItemsToMediaPool media_storage file_paths] }
            else
              { text := "Failed to import media files. Check that the file paths are valid.",
                state := a1, calls := t1 ++ [VCall.ms_AddItemsToMediaPool media_storage file_paths] }

def create_folder (v : Vendor) (a : ResolveAPI) (name : String) : EndpointResult :=
  if !a.is_connected then
    { text := errNotConnected, state := a, calls := [] }
  else
    match ResolveAPI.get_media_pool v a with
    | (none, a1, t1) => { text := "No media pool available.", state := a1, calls := t1 }
    | (some media_pool, a1, t1) =>
        match v.mp_GetCurrentFolder media_pool with
        | none =>
            { text := "No current folder available.", state := a1,
              calls := t1 ++ [VCall.mp_GetCurrentFolder media_pool] }
        | some current_folder =>
            let base := t1 ++ [VCall.mp_GetCurrentFolder media_pool,
              VCall.mp_AddSubFolder media_pool current_folder name]
            match v.mp_AddSubFolder media_pool current_folder name with
            | some _ =>
                { text := "Successfully created folder \x27" ++ name ++ "\x27.", state := a1, calls := base }
            | none =>
                { text := "Failed to create folder \x27" ++ name ++ "\x27. The folder may already exist.",
                  state := a1, calls := base }

/- The validation loop in create_timeline_from_clips: walk the requested
   indices in order, stopping with an error message at the first index outside
   1..len(clips_list); clips_list[index - 1] is collected otherwise. -/
def selectClips (clips_list : List ClipHandle) : List Int → Except String (List ClipHandle)
  | [] => Except.ok []
  | index :: rest =>
      if index < 1 ∨ index > (clips_list.length : Int) then
        Except.error ("Invalid clip index " ++ toString index ++ ". Valid range is 1-" ++ toString clips_list.length ++ ".")
      else
        match selectClips clips_list rest with
        | Except.error e => Except.error e
        | Except.ok sel => Except.ok (clips_list.getD (index.toNat - 1) ⟨0⟩ :: sel)

def create_timeline_from_clips (v : Vendor) (a : ResolveAPI) (name : String)
    (clip_indices : List Int) : EndpointResult :=
  if !a.is_connected then
    { text := errNotConnected, state := a, calls := [] }
  else
    match ResolveAPI.get_media_pool v a with
    | (none, a1, t1) => { text := "No media pool available.", state := a1, calls := t1 }
    | (some media_pool, a1, t1) =>
        match v.mp_GetCurrentFolder media_pool with
        | none =>
            { text := "No current folder available.", state := a1,
              calls := t1 ++ [VCall.mp_GetCurrentFolder media_pool] }
        | some current_folder =>
            let clips := current_folder.clips
            let base := t1 ++ [VCall.mp_GetCurrentFolder media_pool,
              VCall.folder_GetClips current_folder]
            if clips.isEmpty then
              { text := "No clips in the current folder.", state := a1, calls := base }
            else
              match selectClips clips clip_indices with
              | Except.error e => { text := e, state := a1, calls := base }
              | Except.ok selected_clips =>
                  match v.mp_CreateTimelineFromClips media_pool name selected_clips with
                  | some _ =>
                      { text := "Successfully created timeline \x27" ++ name ++ "\x27 with " ++ toString selected_clips.length ++ " clips.",
                        state := a1,
                        calls := base ++ [VCall.mp_CreateTimelineFromClips media_pool name selected_clips] }
                  | none =>
                      { text := "Failed to create timeline \x27" ++ name ++ "\x27.",
                        state := a1,
                        calls := base ++ [VCall.mp_CreateTimelineFromClips media_pool name selected_clips] }

def add_fusion_comp_to_clip (v : Vendor) (a : ResolveAPI) (timeline_index : Int)
    (track_type : String) (track_index : Int) (item_index : Int) : EndpointResult :=
  if !a.is_connected then
    { text := errNotConnected, state := a, calls := [] }
  else
    match ResolveAPI.get_current_project v a with
    | (none, a1, t1) => { text := "No project is currently open.", state := a1, calls := t1 }
    | (some project, a1, t1) =>
        let timeline_count := v.project_GetTimelineCount project
        if timeline_index < 1 ∨ timeline_index > (timeline_count : Int) then
          { text := "Invalid timeline index. Valid range is 1-" ++ toString timeline_count ++ ".",
            state := a1, calls := t1 ++ [VCall.project_GetTimelineCount project] }
        else
          match v.project_GetTimelineByIndex project timeline_index with
          | none =>
              { text := "Failed to get timeline at index " ++ toString timeline_index ++ ".",
                state := a1,
                calls := t1 ++ [VCall.project_GetTimelineCount project,
                  VCall.project_GetTimelineByIndex project timeline_index] }
          | some timeline =>
              let base2 := t1 ++ [VCall.project_GetTimelineCount project,
                VCall.project_GetTimelineByIndex project timeline_index]
              if track_type ∉ (["video", "audio", "subtitle"] : List String) then
                { text := "Invalid track type. Valid types are \x27video\x27, \x27audio\x27, or \x27subtitle\x27.",
                  state := a1, calls := base2 }
              else
                let track_count := v.timeline_GetTrackCount timeline track_type
                if track_index < 1 ∨ track_index > (track_count : Int) then
                  { text := "Invalid track index. Valid range is 1-" ++ toString track_count ++ ".",
                    state := a1, calls := base2 ++ [VCall.timeline_GetTrackCount timeline track_type] }
                else
                  let items := v.timeline_GetItemsInTrack timeline track_type track_index
                  let base3 := base2 ++ [VCall.timeline_GetTrackCount timeline track_type,
                    VCall.timeline_GetItemsInTrack timeline track_type track_index]
                  if items.isEmpty then
                    { text := "No items in " ++ track_type ++ " track " ++ toString track_index ++ ".",
                      state := a1, calls := base3 }
                  else if item_index < 1 ∨ item_index > (items.length : Int) then
                    { text := "Invalid item index. Valid range is 1-" ++ toString items.length ++ ".",
                      state := a1, calls := base3 }
                  else
                    let item := items.getD (item_index.toNat - 1) ⟨0⟩
                    match v.item_AddFusionComp item with
                    | some _ =>
                        let op := ResolveAPI.open_page v a1 "fusion"
                        { text := "Successfully added Fusion composition to " ++ track_type ++ " track " ++ toString track_index ++ ", item " ++ toString item_index ++ ".",
                          state := a1, calls := base3 ++ [VCall.item_AddFusionComp item] ++ op.2 }
                    | none =>
                        { text := "Failed to add Fusion composition to " ++ track_type ++ " track " ++ toString track_index ++ ", item " ++ toString item_index ++ ".",
                          state := a1, calls := base3 ++ [VCall.item_AddFusionComp item] }

def create_fusion_node (v : Vendor) (a : ResolveAPI) (node_type : String)
    (parameters : FusionInputs) : EndpointResult :=
  if !a.is_connected then
    { text := errNotConnected, state := a, calls := [] }
  else
    let comp := ResolveAPI.get_current_comp v a
    match comp.1 with
    | none =>
        { text := "No active Fusion composition. Please open the Fusion page and select a composition first.",
          state := a, calls := comp.2 }
    | some c =>
        let node := ResolveAPI.create_fusion_node v a (some c) node_type parameters
        if node.1.isSome then
          { text := "Successfully created " ++ node_type ++ " node in the Fusion composition.",
            state := a, calls := comp.2 ++ node.2 }
        else
          { text := "Failed to create " ++ node_type ++ " node. Check that the node type is valid.",
            state := a, calls := comp.2 ++ node.2 }

/- One entry of the node_chain argument of create_fusion_node_chain: the
   optional "type", "name" and "params" keys of the Python dict. -/
structure NodeSpec where
  typeKey : Option String
  nameKey : Option String
  paramsKey : FusionInputs

def pyTruthyOptStr : Option String → Bool
  | none => false
  | some s => s ≠ ""

/- The loop body of create_fusion_node_chain: skip entries without a truthy
   "type", skip entries whose node creation fails, otherwise set the name when
   given, connect to the previous node when there is one, and record the type. -/
def chainLoop (v : Vendor) (a : ResolveAPI) (comp : Option CompHandle) :
    List NodeSpec → Option NodeHandle → List String × List VCall
  | [], _ => ([], [])
  | spec :: rest, prev_node =>
      if !pyTruthyOptStr spec.typeKey then
        chainLoop v a comp rest prev_node
      else
        let ty := spec.typeKey.getD ""
        let nodeRes := ResolveAPI.create_fusion_node v a comp ty spec.paramsKey
        match nodeRes.1 with
        | none =>
            let r := chainLoop v a comp rest prev_node
            (r.1, nodeRes.2 ++ r.2)
        | some node =>
            let nameCalls := if pyTruthyOptStr spec.nameKey
              then [VCall.node_SetAttrsName node (spec.nameKey.getD "")]
              else []
            let connCalls := match prev_node with
              | some pn => [VCall.node_ConnectInput node "Input" pn]
              | none => []
            let r := chainLoop v a comp rest (some node)
            (ty :: r.1, nodeRes.2 ++ nameCalls ++ connCalls ++ r.2)

def create_fusion_node_chain (v : Vendor) (a : ResolveAPI) (node_chain : List NodeSpec) :
    EndpointResult :=
  if !a.is_connected then
    { text := errNotConnected, state := a, calls := [] }
  else
    let comp := ResolveAPI.get_current_comp v a
    match comp.1 with
    | none =>
        { text := "No active Fusion composition. Please open the Fusion page and select a composition first.",
          state := a, calls := comp.2 }
    | some c =>
        if node_chain.isEmpty then
          { text := "No nodes specified in the chain.", state := a, calls := comp.2 }
        else
          let loop := chainLoop v a (some c) node_chain none
          if loop.1.isEmpty then
            { text := "Failed to create any nodes in the chain.", state := a, calls := comp.2 ++ loop.2 }
          else
            { text := "Successfully created node chain: " ++ String.intercalate " -> " loop.1,
              state := a, calls := comp.2 ++ loop.2 }

def open_page (v : Vendor) (a : ResolveAPI) (page_name : String) : EndpointResult :=
  if !a.is_connected then
    { text := errNotConnected, state := a, calls := [] }
  else if pyLower page_name ∉ valid_pages then
    { text := "Invalid page name. Valid pages are: " ++ String.intercalate ", " valid_pages ++ ".",
      state := a, calls := [] }
  else
    let res := ResolveAPI.open_page v a (pyLower page_name)
    if res.1 then
      { text := "Successfully opened the " ++ pyCapitalize page_name ++ " page.", state := a, calls := res.2 }
    else
      { text := "Failed to open the " ++ pyCapitalize page_name ++ " page.", state := a, calls := res.2 }

def execute_python (v : Vendor) (a : ResolveAPI) (code : String) : EndpointResult :=
  if !a.is_connected then
    { text := errNotConnected, state := a, calls := [] }
  else
    let r := v.pythonExec code a
    { text := r.1, state := r.2.1, calls := r.2.2 }

def execute_lua (v : Vendor) (a : ResolveAPI) (script : String) : EndpointResult :=
  if !a.is_connected then
    { text := errNotConnected, state := a, calls := [] }
  else
    match a.fusion with
    | none => { text := "Fusion is not available.", state := a, calls := [] }
    | some _ =>
        let r := ResolveAPI.execute_lua v a script
        match r.1 with
        | some s => { text := s, state := a, calls := r.2 }
        | none => { text := "Script executed successfully.", state := a, calls := r.2 }

end Server

/- Connection setup (_connect_to_resolve).  The environment supplies the
   operating system name, the resolved value of
   os.environ.get("PROGRAMDATA", "C:\\ProgramData"), the expansion of "~",
   the initial sys.path, and an oracle giving the outcome of attempting
   `import DaVinciResolveScript` under a given sys.path (an ImportError, or a
   success whose scriptapp("Resolve") call returns the contained handle). -/

inductive OSKind where
  | windows
  | darwin
  | linux
  | other
deriving DecidableEq

inductive ImportResult where
  | importError
  | ok (resolve : Option ResolveHandle)
deriving DecidableEq

structure ConnEnv where
  os : OSKind
  programData : String
  home : String
  sysPath0 : List String
  importModule : List String → ImportResult

/- sys.path.append guarded by `if path not in sys.path`. -/
def appendPath (sysPath : List String) (p : String) : List String :=
  if p ∈ sysPath then sysPath else sysPath ++ [p]

/- Whether the last character of a string is c (os.path.join's trailing
   separator check). -/
def lastCharIs (s : String) (c : Char) : Bool :=
  match s.data.getLast? with
  | some d => d == c
  | none => false

/- os.path.join for two relative-second-component arguments. -/
def winJoin (x y : String) : String :=
  if lastCharIs x (Char.ofNat 92) then x ++ y else x ++ "\\" ++ y

def posixJoin (x y : String) : String :=
  if lastCharIs x (Char.ofNat 47) then x ++ y else x ++ "/" ++ y

def windowsScriptModules (programData : String) : String :=
  winJoin (winJoin (winJoin (winJoin (winJoin (winJoin programData "Blackmagic Design") "DaVinci Resolve") "Support") "Developer") "Scripting") "Modules"

def darwinSystemModules : String :=
  posixJoin "/Library/Application Support/Blackmagic Design/DaVinci Resolve/Developer/Scripting" "Modules"

def darwinUserModules (home : String) : String :=
  posixJoin home "Library/Application Support/Blackmagic Design/DaVinci Resolve/Developer/Scripting/Modules"

def linuxModules : String :=
  posixJoin "/opt/resolve/Developer/Scripting" "Modules"

/- Outcome of __init__ / _connect_to_resolve: the adapter state, the final
   sys.path, and the sys.path snapshots at which an import was attempted. -/
structure ConnectOutcome where
  api : ResolveAPI
  sysPath : List String
  attempts : List (List String)

def ResolveAPI.nullState : ResolveAPI :=
  { resolve := none, fusion := none, project_manager := none,
    current_project := none, media_storage := none, media_pool := none }

def connect_to_resolve (v : Vendor) (env : ConnEnv) : ConnectOutcome :=
  let step : Option ResolveHandle × List String × List (List String) :=
    match env.os with
    | OSKind.windows =>
        let sp := appendPath env.sysPath0 (windowsScriptModules env.programData)
        (match env.importModule sp with
         | ImportResult.ok r => (r, sp, [sp])
         | ImportResult.importError => (none, sp, [sp]))
    | OSKind.darwin =>
        let sp1 := appendPath env.sysPath0 darwinSystemModules
        (match env.importModule sp1 with
         | ImportResult.ok r => (r, sp1, [sp1])
         | ImportResult.importError =>
             let sp2 := appendPath sp1 (darwinUserModules env.home)
             (match env.importModule sp2 with
              | ImportResult.ok r => (r, sp2, [sp1, sp2])
              | ImportResult.importError => (none, sp2, [sp1, sp2])))
    | OSKind.linux =>
        let sp := appendPath env.sysPath0 linuxModules
        (match env.importModule sp with
         | ImportResult.ok r => (r, sp, [sp])
         | ImportResult.importError => (none, sp, [sp]))
    | OSKind.other => (none, env.sysPath0, [])
  match step.1 with
  | none =>
      { api := { ResolveAPI.nullState with resolve := none },
        sysPath := step.2.1, attempts := step.2.2 }
  | some r =>
      let pm := v.resolve_GetProjectManager r
      let cp := v.pm_GetCurrentProject pm
      let ms := v.resolve_GetMediaStorage r
      let fu := v.resolve_Fusion r
      let mp := match cp with
        | some p => v.project_GetMediaPool p
        | none => none
      { api := { resolve := some r, fusion := some fu, project_manager := some pm,
                 current_project := cp, media_storage := some ms, media_pool := mp },
        sysPath := step.2.1, attempts := step.2.2 }

/- Second definition for the refinement claim C6, following the spec words:
   a cache-free adapter would fetch the project-manager, current-project and
   media-pool handles fresh from the vendor on each call. -/
def freshMediaPool (v : Vendor) (a : ResolveAPI) : Option MediaPoolHandle :=
  match a.resolve with
  | none => none
  | some r =>
      let pm := v.resolve_GetProjectManager r
      match v.pm_GetCurrentProject pm with
      | none => none
      | some p => v.project_GetMediaPool p

/- A concrete vendor oracle used by witnesses and counterexamples. -/
def vBase : Vendor where
  resolve_GetProjectManager := fun _ => ⟨0⟩
  resolve_GetMediaStorage := fun _ => ⟨0⟩
  resolve_Fusion := fun _ => ⟨0⟩
  resolve_OpenPage := fun _ _ => true
  pm_GetCurrentProject := fun _ => none
  pm_CreateProject := fun _ _ => none
  pm_LoadProject := fun _ _ => none
  project_GetName := fun _ => "Proj"
  project_GetMediaPool := fun _ => none
  project_GetTimelineCount := fun _ => 0
  project_GetCurrentTimeline := fun _ => none
  project_GetTimelineByIndex := fun _ _ => none
  project_SetCurrentTimeline := fun _ _ => true
  project_SaveProject := fun _ => true
  timeline_GetName := fun _ => "TL"
  timeline_GetStartFrame := fun _ => 0
  timeline_GetEndFrame := fun _ => 0
  timeline_GetTrackCount := fun _ _ => 0
  timeline_GetItemsInTrack := fun _ _ _ => []
  item_AddFusionComp := fun _ => none
  mp_GetRootFolder := fun _ => none
  mp_GetCurrentFolder := fun _ => none
  mp_CreateEmptyTimeline := fun _ _ => none
  mp_CreateTimelineFromClips := fun _ _ _ => none
  mp_AddSubFolder := fun _ _ _ => none
  mp_AppendToTimeline := fun _ _ => true
  mp_ImportTimelineFromFile := fun _ _ => none
  ms_GetMountedVolumes := fun _ => []
  ms_GetSubFolders := fun _ _ => []
  ms_GetFiles := fun _ _ => []
  ms_AddItemsToMediaPool := fun _ _ => []
  clip_GetName := fun _ => "Clip"
  fusion_Execute := fun _ _ => none
  fusion_CurrentComp := fun _ => none
  comp_AddTool := fun _ _ => none
  pythonExec := fun _ a => ("", a, [])

/- The four adapter handles that no resource endpoint ever reassigns. -/
def preservesCore (a b : ResolveAPI) : Prop :=
  b.resolve = a.resolve ∧ b.fusion = a.fusion ∧
  b.project_manager = a.project_manager ∧ b.media_storage = a.media_storage

/- The numbered clip lines "{i}. {name}" of a clip listing. -/
def numberedClipLines (v : Vendor) (clips : List ClipHandle) (start : Nat) : List String :=
  (enumFrom start clips).map fun pr => toString pr.1 ++ ". " ++ v.clip_GetName pr.2

/- A fully connected adapter state used by witnesses and counterexamples. -/
def aConn : ResolveAPI :=
  { resolve := some ⟨0⟩, fusion := some ⟨0⟩, project_manager := some ⟨0⟩,
    current_project := some ⟨1⟩, media_storage := some ⟨0⟩, media_pool := some ⟨11⟩ }

/- A vendor whose current project (id 2) differs from the cached handle of
   aConn (id 1). -/
def vRefresh : Vendor :=
  { vBase with pm_GetCurrentProject := fun _ => some ⟨2⟩ }

/- A vendor distinguishing the media pools of the cached project (id 1,
   pool 11) and of the vendor-current project (id 2, pool 22). -/
def vStale : Vendor :=
  { vBase with
    pm_GetCurrentProject := fun _ => some ⟨2⟩,
    project_GetMediaPool := fun p => if p.id = 1 then some ⟨11⟩ else some ⟨22⟩ }

/- A vendor on which create_timeline succeeds end to end. -/
def vGood : Vendor :=
  { vBase with
    pm_GetCurrentProject := fun _ => some ⟨1⟩,
    project_GetMediaPool := fun _ => some ⟨11⟩,
    mp_CreateEmptyTimeline := fun _ _ => some ⟨3⟩ }

/- A macOS environment in which every import attempt fails. -/
def envDarwinFail : ConnEnv :=
  { os := OSKind.darwin, programData := "C:\\ProgramData", home := "/Users/u",
    sysPath0 := [], importModule := fun _ => ImportResult.importError }

/- A vendor with two timelines, one track, one item and two clips, on which
   the index and enum validations can be exercised. -/
def vIdx : Vendor :=
  { vBase with
    pm_GetCurrentProject := fun _ => some ⟨0⟩,
    project_GetTimelineCount := fun _ => 2,
    project_GetTimelineByIndex := fun _ _ => some ⟨5⟩,
    timeline_GetTrackCount := fun _ _ => 1,
    timeline_GetItemsInTrack := fun _ _ _ => [⟨0⟩],
    project_GetMediaPool := fun _ => some ⟨11⟩,
    mp_GetCurrentFolder := fun _ => some (FolderTree.node "F" [⟨1⟩, ⟨2⟩] []) }

/- Twelve clips, for exercising the ten-clip listing cap. -/
def clips12 : List ClipHandle :=
  (List.range 12).map fun k => ⟨k⟩

def folder12 : FolderTree :=
  FolderTree.node "Big" clips12 []

/- A vendor whose current media-pool folder holds twelve clips. -/
def v12 : Vendor :=
  { vBase with
    project_GetMediaPool := fun _ => some ⟨11⟩,
    mp_GetCurrentFolder := fun _ => some folder12 }

/-- C1: when the adapter is not connected (the resolve handle is null), every
resource and tool endpoint returns its error string — for tools and the
non-status resources exactly "Error: Not connected to DaVinci Resolve.", and
for system://status its not-connected status text — performs no vendor call,
and leaves the adapter state unchanged. -/
theorem C1_not_connected_endpoints (v : Vendor) (a : ResolveAPI)
    (h : a.resolve = none)
    (name script code page tt : String) (idx ti tri ii : Int)
    (paths : List String) (indices : List Int) (params : FusionInputs)
    (chain : List Server.NodeSpec) :
    Server.get_system_status v a = ⟨Server.statusNotConnectedText, a, []⟩ ∧
    Server.get_current_project v a = ⟨errNotConnected, a, []⟩ ∧
    Server.get_project_timelines v a = ⟨errNotConnected, a, []⟩ ∧
    Server.get_current_timeline v a = ⟨errNotConnected, a, []⟩ ∧
    Server.get_media_pool_folders v a = ⟨errNotConnected, a, []⟩ ∧
    Server.get_current_media_pool_folder v a = ⟨errNotConnected, a, []⟩ ∧
    Server.get_mounted_volumes v a = ⟨errNotConnected, a, []⟩ ∧
    Server.create_project v a name = ⟨errNotConnected, a, []⟩ ∧
    Server.load_project v a name = ⟨errNotConnected, a, []⟩ ∧
    Server.save_project v a = ⟨errNotConnected, a, []⟩ ∧
    Server.create_timeline v a name = ⟨errNotConnected, a, []⟩ ∧
    Server.set_current_timeline v a idx = ⟨errNotConnected, a, []⟩ ∧
    Server.import_media v a paths = ⟨errNotConnected, a, []⟩ ∧
    Server.create_folder v a name = ⟨errNotConnected, a, []⟩ ∧
    Server.create_timeline_from_clips v a name indices = ⟨errNotConnected, a, []⟩ ∧
    Server.add_fusion_comp_to_clip v a ti tt tri ii = ⟨errNotConnected, a, []⟩ ∧
    Server.create_fusion_node v a name params = ⟨errNotConnected, a, []⟩ ∧
    Server.create_fusion_node_chain v a chain = ⟨errNotConnected, a, []⟩ ∧
    Server.open_page v a page = ⟨errNotConnected, a, []⟩ ∧
    Server.execute_python v a code = ⟨errNotConnected, a, []⟩ ∧
    Server.execute_lua v a script = ⟨errNotConnected, a, []⟩ := by
  have hc : a.is_connected = false := by
    simp [ResolveAPI.is_connected, h]
  refine ⟨?_, ?_, ?_, ?_, ?_, ?_, ?_, ?_, ?_, ?_, ?_, ?_, ?_, ?_, ?_, ?_, ?_, ?_, ?_, ?_, ?_⟩ <;>
    simp [Server.get_system_status, Server.get_current_project,
      Server.get_project_timelines, Server.get_current_timeline,
      Server.get_media_pool_folders, Server.get_current_media_pool_folder,
      Server.get_mounted_volumes, Server.create_project, Server.load_project,
      Server.save_project, Server.create_timeline, Server.set_current_timeline,
      Server.import_media, Server.create_folder, Server.create_timeline_from_clips,
      Server.add_fusion_comp_to_clip, Server.create_fusion_node,
      Server.create_fusion_node_chain, Server.open_page, Server.execute_python,
      Server.execute_lua, hc]

/-- C1 witness: the theorem evaluated on the all-null adapter state and a
concrete vendor. -/
theorem C1_not_connected_endpoints_witness :
    Server.get_system_status vBase ResolveAPI.nullState = ⟨Server.statusNotConnectedText, ResolveAPI.nullState, []⟩ ∧
    Server.get_current_project vBase ResolveAPI.nullState = ⟨errNotConnected, ResolveAPI.nullState, []⟩ ∧
    Server.get_project_timelines vBase ResolveAPI.nullState = ⟨errNotConnected, ResolveAPI.nullState, []⟩ ∧
    Server.get_current_timeline vBase ResolveAPI.nullState = ⟨errNotConnected, ResolveAPI.nullState, []⟩ ∧
    Server.get_media_pool_folders vBase ResolveAPI.nullState = ⟨errNotConnected, ResolveAPI.nullState, []⟩ ∧
    Server.get_current_media_pool_folder vBase ResolveAPI.nullState = ⟨errNotConnected, ResolveAPI.nullState, []⟩ ∧
    Server.get_mounted_volumes vBase ResolveAPI.nullState = ⟨errNotConnected, ResolveAPI.nullState, []⟩ ∧
    Server.create_project vBase ResolveAPI.nullState "P" = ⟨errNotConnected, ResolveAPI.nullState, []⟩ ∧
    Server.load_project vBase ResolveAPI.nullState "P" = ⟨errNotConnected, ResolveAPI.nullState, []⟩ ∧
    Server.save_project vBase ResolveAPI.nullState = ⟨errNotConnected, ResolveAPI.nullState, []⟩ ∧
    Server.create_timeline vBase ResolveAPI.nullState "P" = ⟨errNotConnected, ResolveAPI.nullState, []⟩ ∧
    Server.set_current_timeline vBase ResolveAPI.nullState 1 = ⟨errNotConnected, ResolveAPI.nullState, []⟩ ∧
    Server.import_media vBase ResolveAPI.nullState [] = ⟨errNotConnected, ResolveAPI.nullState, []⟩ ∧
    Server.create_folder vBase ResolveAPI.nullState "P" = ⟨errNotConnected, ResolveAPI.nullState, []⟩ ∧
    Server.create_timeline_from_clips vBase ResolveAPI.nullState "P" [] = ⟨errNotConnected, ResolveAPI.nullState, []⟩ ∧
    Server.add_fusion_comp_to_clip vBase ResolveAPI.nullState 1 "video" 1 1 = ⟨errNotConnected, ResolveAPI.nullState, []⟩ ∧
    Server.create_fusion_node vBase ResolveAPI.nullState "P" none = ⟨errNotConnected, ResolveAPI.nullState, []⟩ ∧
    Server.create_fusion_node_chain vBase ResolveAPI.nullState [] = ⟨errNotConnected, ResolveAPI.nullState, []⟩ ∧
    Server.open_page vBase ResolveAPI.nullState "edit" = ⟨errNotConnected, ResolveAPI.nullState, []⟩ ∧
    Server.execute_python vBase ResolveAPI.nullState "x" = ⟨errNotConnected, ResolveAPI.nullState, []⟩ ∧
    Server.execute_lua vBase ResolveAPI.nullState "x" = ⟨errNotConnected, ResolveAPI.nullState, []⟩ :=
  C1_not_connected_endpoints vBase ResolveAPI.nullState rfl "P" "x" "x" "edit" "video" 1 1 1 1 [] [] none ([] : List Server.NodeSpec)

/- Query calls are not mutations: one rewrite lemma per query constructor. -/

@[simp] theorem isMutation_pm_GetCurrentProject (pm : PMHandle) :
    (VCall.pm_GetCurrentProject pm).isMutation = false := rfl

@[simp] theorem isMutation_project_GetMediaPool (p : ProjectHandle) :
    (VCall.project_GetMediaPool p).isMutation = false := rfl

@[simp] theorem isMutation_project_GetName (p : ProjectHandle) :
    (VCall.project_GetName p).isMutation = false := rfl

@[simp] theorem isMutation_project_GetTimelineCount (p : ProjectHandle) :
    (VCall.project_GetTimelineCount p).isMutation = false := rfl

@[simp] theorem isMutation_project_GetCurrentTimeline (p : ProjectHandle) :
    (VCall.project_GetCurrentTimeline p).isMutation = false := rfl

@[simp] theorem isMutation_project_GetTimelineByIndex (p : ProjectHandle) (i : Int) :
    (VCall.project_GetTimelineByIndex p i).isMutation = false := rfl

@[simp] theorem isMutation_timeline_GetName (t : TimelineHandle) :
    (VCall.timeline_GetName t).isMutation = false := rfl

@[simp] theorem isMutation_timeline_GetStartFrame (t : TimelineHandle) :
    (VCall.timeline_GetStartFrame t).isMutation = false := rfl

@[simp] theorem isMutation_timeline_GetEndFrame (t : TimelineHandle) :
    (VCall.timeline_GetEndFrame t).isMutation = false := rfl

@[simp] theorem isMutation_timeline_GetTrackCount (t : TimelineHandle) (k : String) :
    (VCall.timeline_GetTrackCount t k).isMutation = false := rfl

@[simp] theorem isMutation_timeline_GetItemsInTrack (t : TimelineHandle) (k : String) (i : Int) :
    (VCall.timeline_GetItemsInTrack t k i).isMutation = false := rfl

@[simp] theorem isMutation_mp_GetRootFolder (mp : MediaPoolHandle) :
    (VCall.mp_GetRootFolder mp).isMutation = false := rfl

@[simp] theorem isMutation_mp_GetCurrentFolder (mp : MediaPoolHandle) :
    (VCall.mp_GetCurrentFolder mp).isMutation = false := rfl

@[simp] theorem isMutation_ms_GetMountedVolumes (ms : MSHandle) :
    (VCall.ms_GetMountedVolumes ms).isMutation = false := rfl

@[simp] theorem isMutation_ms_GetSubFolders (ms : MSHandle) (p : String) :
    (VCall.ms_GetSubFolders ms p).isMutation = false := rfl

@[simp] theorem isMutation_ms_GetFiles (ms : MSHandle) (p : String) :
    (VCall.ms_GetFiles ms p).isMutation = false := rfl

@[simp] theorem isMutation_folder_GetName (f : FolderTree) :
    (VCall.folder_GetName f).isMutation = false := rfl

@[simp] theorem isMutation_folder_GetClips (f : FolderTree) :
    (VCall.folder_GetClips f).isMutation = false := rfl

@[simp] theorem isMutation_folder_GetSubFolders (f : FolderTree) :
    (VCall.folder_GetSubFolders f).isMutation = false := rfl

@[simp] theorem isMutation_clip_GetName (c : ClipHandle) :
    (VCall.clip_GetName c).isMutation = false := rfl

@[simp] theorem isMutation_fusion_CurrentComp (fu : FusionHandle) :
    (VCall.fusion_CurrentComp fu).isMutation = false := rfl

/- Helper lemmas: the two attribute-refreshing ResolveAPI methods preserve
   the non-refreshed handles and perform only query calls; the three
   formatting loops of the resource endpoints perform only query calls. -/

theorem gcp_state_calls (v : Vendor) (a : ResolveAPI) :
    ((ResolveAPI.get_current_project v a).2.1).resolve = a.resolve ∧
    ((ResolveAPI.get_current_project v a).2.1).fusion = a.fusion ∧
    ((ResolveAPI.get_current_project v a).2.1).project_manager = a.project_manager ∧
    ((ResolveAPI.get_current_project v a).2.1).media_storage = a.media_storage ∧
    ((ResolveAPI.get_current_project v a).2.1).media_pool = a.media_pool ∧
    (∀ c ∈ (ResolveAPI.get_current_project v a).2.2, c.isMutation = false) := by
  cases h : a.project_manager <;>
    simp [ResolveAPI.get_current_project, h]

theorem gmp_state_calls (v : Vendor) (a : ResolveAPI) :
    ((ResolveAPI.get_media_pool v a).2.1).resolve = a.resolve ∧
    ((ResolveAPI.get_media_pool v a).2.1).fusion = a.fusion ∧
    ((ResolveAPI.get_media_pool v a).2.1).project_manager = a.project_manager ∧
    ((ResolveAPI.get_media_pool v a).2.1).media_storage = a.media_storage ∧
    ((ResolveAPI.get_media_pool v a).2.1).current_project = a.current_project ∧
    (∀ c ∈ (ResolveAPI.get_media_pool v a).2.2, c.isMutation = false) := by
  cases h : a.current_project <;>
    simp [ResolveAPI.get_media_pool, h]

theorem timelinesLoop_noMutation (v : Vendor) (p : ProjectHandle) :
    ∀ (rem i : Nat), ∀ c ∈ (Server.timelinesLoop v p i rem).2, c.isMutation = false
  | 0, i => by simp [Server.timelinesLoop]
  | Nat.succ rem, i => by
      have h := timelinesLoop_noMutation v p rem (i + 1)
      cases ht : v.project_GetTimelineByIndex p ((i : Int)) <;>
        simpa [Server.timelinesLoop, ht] using h

theorem clipInfoLoop_noMutation (v : Vendor) (n : Nat) :
    ∀ (l : List ClipHandle) (i : Nat),
      ∀ c ∈ (Server.clipInfoLoop v n l i).2, c.isMutation = false
  | [], i => by simp [Server.clipInfoLoop]
  | c :: rest, i => by
      have h := clipInfoLoop_noMutation v n rest (i + 1)
      by_cases hi : i > 10
      · simp [Server.clipInfoLoop, hi]
      · simpa [Server.clipInfoLoop, hi] using h

mutual

theorem get_folder_structure_noMutation :
    ∀ (f : FolderTree) (ind : String),
      ∀ c ∈ (Server.get_folder_structure f ind).2, c.isMutation = false
  | FolderTree.node n cs ss, ind => by
      have h := folderStructureList_noMutation ss (ind ++ "  ")
      simpa [Server.get_folder_structure] using h

theorem folderStructureList_noMutation :
    ∀ (l : List FolderTree) (ind : String),
      ∀ c ∈ (Server.folderStructureList l ind).2, c.isMutation = false
  | [], ind => by simp [Server.folderStructureList]
  | f :: rest, ind => by
      have h1 := get_folder_structure_noMutation f ind
      have h2 := folderStructureList_noMutation rest ind
      simp only [Server.folderStructureList]
      intro c hc
      rcases List.mem_append.mp hc with h | h
      · exact h1 c h
      · exact h2 c h

end

/- Per-resource helper lemmas for C2. -/

theorem system_status_core (v : Vendor) (a : ResolveAPI) :
    preservesCore a (Server.get_system_status v a).state ∧
    ∀ c ∈ (Server.get_system_status v a).calls, c.isMutation = false := by
  cases hc : a.is_connected
  case false => simp [Server.get_system_status, hc, preservesCore]
  case true =>
    cases hp : a.current_project with
    | none =>
        simp [Server.get_system_status, hc, hp, preservesCore,
          ResolveAPI.get_project_name, ResolveAPI.get_current_timeline]
    | some p =>
        cases htl : v.project_GetCurrentTimeline p <;>
          simp [Server.get_system_status, hc, hp, htl, preservesCore,
            ResolveAPI.get_project_name, ResolveAPI.get_current_timeline]

theorem current_project_res_core (v : Vendor) (a : ResolveAPI) :
    preservesCore a (Server.get_current_project v a).state ∧
    ∀ c ∈ (Server.get_current_project v a).calls, c.isMutation = false := by
  cases hc : a.is_connected
  case false => simp [Server.get_current_project, hc, preservesCore]
  case true =>
    have e := gcp_state_calls v a
    rcases hg : ResolveAPI.get_current_project v a with ⟨p?, a1, t1⟩
    rw [hg] at e
    obtain ⟨e1, e2, e3, e4, -, e6⟩ := e
    cases p? with
    | none => simp_all [Server.get_current_project, hc, hg, preservesCore]
    | some project =>
        cases hct : v.project_GetCurrentTimeline project <;>
          simp_all [Server.get_current_project, hc, hg, hct, preservesCore] <;> aesop

theorem project_timelines_core (v : Vendor) (a : ResolveAPI) :
    preservesCore a (Server.get_project_timelines v a).state ∧
    ∀ c ∈ (Server.get_project_timelines v a).calls, c.isMutation = false := by
  cases hc : a.is_connected
  case false => simp [Server.get_project_timelines, hc, preservesCore]
  case true =>
    have e := gcp_state_calls v a
    rcases hg : ResolveAPI.get_current_project v a with ⟨p?, a1, t1⟩
    rw [hg] at e
    obtain ⟨e1, e2, e3, e4, -, e6⟩ := e
    cases p? with
    | none => simp_all [Server.get_project_timelines, hc, hg, preservesCore]
    | some project =>
        have hloop := timelinesLoop_noMutation v project (v.project_GetTimelineCount project) 1
        by_cases hz : v.project_GetTimelineCount project = 0 <;>
          simp_all [Server.get_project_timelines, hc, hg, preservesCore] <;> aesop

theorem current_timeline_res_core (v : Vendor) (a : ResolveAPI) :
    preservesCore a (Server.get_current_timeline v a).state ∧
    ∀ c ∈ (Server.get_current_timeline v a).calls, c.isMutation = false := by
  cases hc : a.is_connected
  case false => simp [Server.get_current_timeline, hc, preservesCore]
  case true =>
    have e := gcp_state_calls v a
    rcases hg : ResolveAPI.get_current_project v a with ⟨p?, a1, t1⟩
    rw [hg] at e
    obtain ⟨e1, e2, e3, e4, -, e6⟩ := e
    cases p? with
    | none => simp_all [Server.get_current_timeline, hc, hg, preservesCore]
    | some project =>
        cases hct : v.project_GetCurrentTimeline project <;>
          simp_all [Server.get_current_timeline, hc, hg, hct, preservesCore] <;> aesop

theorem media_pool_folders_core (v : Vendor) (a : ResolveAPI) :
    preservesCore a (Server.get_media_pool_folders v a).state ∧
    ∀ c ∈ (Server.get_media_pool_folders v a).calls, c.isMutation = false := by
  cases hc : a.is_connected
  case false => simp [Server.get_media_pool_folders, hc, preservesCore]
  case true =>
    have e := gmp_state_calls v a
    rcases hg : ResolveAPI.get_media_pool v a with ⟨mp?, a1, t1⟩
    rw [hg] at e
    obtain ⟨e1, e2, e3, e4, -, e6⟩ := e
    cases mp? with
    | none => simp_all [Server.get_media_pool_folders, hc, hg, preservesCore]
    | some media_pool =>
        cases hr : v.mp_GetRootFolder media_pool with
        | none =>
            simp_all [Server.get_media_pool_folders, hc, hg, hr, preservesCore]
            aesop
        | some root =>
            have hwalk := get_folder_structure_noMutation root ""
            simp_all [Server.get_media_pool_folders, hc, hg, hr, preservesCore]
            aesop

theorem current_media_pool_folder_core (v : Vendor) (a : ResolveAPI) :
    preservesCore a (Server.get_current_media_pool_folder v a).state ∧
    ∀ c ∈ (Server.get_current_media_pool_folder v a).calls, c.isMutation = false := by
  cases hc : a.is_connected
  case false => simp [Server.get_current_media_pool_folder, hc, preservesCore]
  case true =>
    have e := gmp_state_calls v a
    rcases hg : ResolveAPI.get_media_pool v a with ⟨mp?, a1, t1⟩
    rw [hg] at e
    obtain ⟨e1, e2, e3, e4, -, e6⟩ := e
    cases mp? with
    | none => simp_all [Server.get_current_media_pool_folder, hc, hg, preservesCore]
    | some media_pool =>
        cases hf : v.mp_GetCurrentFolder media_pool with
        | none =>
            simp_all [Server.get_current_media_pool_folder, hc, hg, hf, preservesCore]
            aesop
        | some folder =>
            have hloop := clipInfoLoop_noMutation v
              (if folder.clips.isEmpty then 0 else folder.clips.length) folder.clips 1
            simp_all [Server.get_current_media_pool_folder, hc, hg, hf, preservesCore]
            aesop

theorem mounted_volumes_core (v : Vendor) (a : ResolveAPI) :
    preservesCore a (Server.get_mounted_volumes v a).state ∧
    ∀ c ∈ (Server.get_mounted_volumes v a).calls, c.isMutation = false := by
  cases hc : a.is_connected
  case false => simp [Server.get_mounted_volumes, hc, preservesCore]
  case true =>
    cases hm : a.media_storage with
    | none => simp [Server.get_mounted_volumes, hc, hm, preservesCore]
    | some ms =>
        by_cases hv : (v.ms_GetMountedVolumes ms).isEmpty <;>
          simp [Server.get_mounted_volumes, hc, hm, hv, preservesCore]

/-- C2 counterexample: invoking the project://current resource on a connected
adapter whose cached current_project handle (id 1) differs from the project
the vendor reports as current (id 2) changes the adapter's stored handles. -/
theorem C2_counterexample_state_changed :
    (Server.get_current_project vRefresh aConn).state ≠ aConn := by decide

/-- C2 (amended): every resource endpoint performs no vendor mutation call and
leaves the resolve, fusion, project_manager and media_storage handles
unchanged; the current_project and media_pool handles, however, may be
reassigned (refreshed from the vendor) by the resources that call
get_current_project or get_media_pool. -/
theorem C2_resources_read_only (v : Vendor) (a : ResolveAPI) :
    (preservesCore a (Server.get_system_status v a).state ∧
      ∀ c ∈ (Server.get_system_status v a).calls, c.isMutation = false) ∧
    (preservesCore a (Server.get_current_project v a).state ∧
      ∀ c ∈ (Server.get_current_project v a).calls, c.isMutation = false) ∧
    (preservesCore a (Server.get_project_timelines v a).state ∧
      ∀ c ∈ (Server.get_project_timelines v a).calls, c.isMutation = false) ∧
    (preservesCore a (Server.get_current_timeline v a).state ∧
      ∀ c ∈ (Server.get_current_timeline v a).calls, c.isMutation = false) ∧
    (preservesCore a (Server.get_media_pool_folders v a).state ∧
      ∀ c ∈ (Server.get_media_pool_folders v a).calls, c.isMutation = false) ∧
    (preservesCore a (Server.get_current_media_pool_folder v a).state ∧
      ∀ c ∈ (Server.get_current_media_pool_folder v a).calls, c.isMutation = false) ∧
    (preservesCore a (Server.get_mounted_volumes v a).state ∧
      ∀ c ∈ (Server.get_mounted_volumes v a).calls, c.isMutation = false) :=
  ⟨system_status_core v a, current_project_res_core v a, project_timelines_core v a,
   current_timeline_res_core v a, media_pool_folders_core v a,
   current_media_pool_folder_core v a, mounted_volumes_core v a⟩

/- The validation loop of create_timeline_from_clips rejects at the first
   invalid index, with an error naming the 1..len(clips) range. -/
theorem selectClips_error_of_invalid (clips_list : List ClipHandle) :
    ∀ (idxs : List Int), (∃ i ∈ idxs, i < 1 ∨ i > (clips_list.length : Int)) →
      ∃ j ∈ idxs, (j < 1 ∨ j > (clips_list.length : Int)) ∧
        Server.selectClips clips_list idxs =
          Except.error ("Invalid clip index " ++ toString j ++ ". Valid range is 1-" ++ toString clips_list.length ++ ".")
  | [], h => by simp at h
  | k :: rest, h => by
      by_cases hk : k < 1 ∨ k > (clips_list.length : Int)
      · exact ⟨k, List.mem_cons_self k rest, hk, by simp [Server.selectClips, hk]⟩
      · have hrest : ∃ i ∈ rest, i < 1 ∨ i > (clips_list.length : Int) := by
          rcases h with ⟨i, hi, hbad⟩
          rcases List.mem_cons.mp hi with rfl | hi2
          · exact absurd hbad hk
          · exact ⟨i, hi2, hbad⟩
        obtain ⟨j, hj, hjbad, heq⟩ := selectClips_error_of_invalid clips_list rest hrest
        exact ⟨j, List.mem_cons_of_mem _ hj, hjbad, by simp [Server.selectClips, hk, heq]⟩

/-- C3: out-of-range 1-based indices are rejected with an error naming the
valid range and without the corresponding vendor mutation call:
set_current_timeline rejects index < 1 or index > GetTimelineCount without
calling SetCurrentTimeline; create_timeline_from_clips rejects any clip index
outside 1..len(clips) without calling CreateTimelineFromClips;
add_fusion_comp_to_clip rejects out-of-range timeline, track and item indices
without calling AddFusionComp. -/
theorem C3_index_validation (v : Vendor) (a : ResolveAPI) (r : ResolveHandle)
    (pm : PMHandle) (p : ProjectHandle) (idx ti tri ii : Int) (tt nm name : String)
    (mp : MediaPoolHandle) (clips : List ClipHandle) (subs : List FolderTree)
    (idxs : List Int) (t : TimelineHandle) :
    (a.resolve = some r → a.project_manager = some pm →
     v.pm_GetCurrentProject pm = some p →
     (idx < 1 ∨ idx > (v.project_GetTimelineCount p : Int)) →
     Server.set_current_timeline v a idx =
       ⟨"Invalid timeline index. Valid range is 1-" ++ toString (v.project_GetTimelineCount p) ++ ".",
        { a with current_project := some p },
        [VCall.pm_GetCurrentProject pm, VCall.project_GetTimelineCount p]⟩ ∧
     (∀ c ∈ (Server.set_current_timeline v a idx).calls, c.isSetCurrentTimeline = false)) ∧
    (a.resolve = some r → a.current_project = some p →
     v.project_GetMediaPool p = some mp →
     v.mp_GetCurrentFolder mp = some (FolderTree.node nm clips subs) →
     clips ≠ [] →
     (∃ i ∈ idxs, i < 1 ∨ i > (clips.length : Int)) →
     (∃ j ∈ idxs, (j < 1 ∨ j > (clips.length : Int)) ∧
        (Server.create_timeline_from_clips v a name idxs).text =
          "Invalid clip index " ++ toString j ++ ". Valid range is 1-" ++ toString clips.length ++ ".") ∧
     (Server.create_timeline_from_clips v a name idxs).calls =
       [VCall.project_GetMediaPool p, VCall.mp_GetCurrentFolder mp,
        VCall.folder_GetClips (FolderTree.node nm clips subs)] ∧
     (∀ c ∈ (Server.create_timeline_from_clips v a name idxs).calls,
        c.isCreateTimelineFromClips = false)) ∧
    (a.resolve = some r → a.project_manager = some pm →
     v.pm_GetCurrentProject pm = some p →
     ((ti < 1 ∨ ti > (v.project_GetTimelineCount p : Int)) →
       Server.add_fusion_comp_to_clip v a ti tt tri ii =
         ⟨"Invalid timeline index. Valid range is 1-" ++ toString (v.project_GetTimelineCount p) ++ ".",
          { a with current_project := some p },
          [VCall.pm_GetCurrentProject pm, VCall.project_GetTimelineCount p]⟩ ∧
       (∀ c ∈ (Server.add_fusion_comp_to_clip v a ti tt tri ii).calls,
          c.isAddFusionComp = false)) ∧
     (1 ≤ ti → ti ≤ (v.project_GetTimelineCount p : Int) →
      v.project_GetTimelineByIndex p ti = some t →
      tt ∈ (["video", "audio", "subtitle"] : List String) →
      (tri < 1 ∨ tri > (v.timeline_GetTrackCount t tt : Int)) →
      Server.add_fusion_comp_to_clip v a ti tt tri ii =
        ⟨"Invalid track index. Valid range is 1-" ++ toString (v.timeline_GetTrackCount t tt) ++ ".",
         { a with current_project := some p },
         [VCall.pm_GetCurrentProject pm, VCall.project_GetTimelineCount p,
          VCall.project_GetTimelineByIndex p ti, VCall.timeline_GetTrackCount t tt]⟩ ∧
      (∀ c ∈ (Server.add_fusion_comp_to_clip v a ti tt tri ii).calls,
         c.isAddFusionComp = false)) ∧
     (1 ≤ ti → ti ≤ (v.project_GetTimelineCount p : Int) →
      v.project_GetTimelineByIndex p ti = some t →
      tt ∈ (["video", "audio", "subtitle"] : List String) →
      1 ≤ tri → tri ≤ (v.timeline_GetTrackCount t tt : Int) →
      v.timeline_GetItemsInTrack t tt tri ≠ [] →
      (ii < 1 ∨ ii > ((v.timeline_GetItemsInTrack t tt tri).length : Int)) →
      Server.add_fusion_comp_to_clip v a ti tt tri ii =
        ⟨"Invalid item index. Valid range is 1-" ++ toString (v.timeline_GetItemsInTrack t tt tri).length ++ ".",
         { a with current_project := some p },
         [VCall.pm_GetCurrentProject pm, VCall.project_GetTimelineCount p,
          VCall.project_GetTimelineByIndex p ti, VCall.timeline_GetTrackCount t tt,
          VCall.timeline_GetItemsInTrack t tt tri]⟩ ∧
      (∀ c ∈ (Server.add_fusion_comp_to_clip v a ti tt tri ii).calls,
         c.isAddFusionComp = false))) := by
  refine ⟨?_, ?_, ?_⟩
  · intro h1 h2 h3 hbad
    have hg : ResolveAPI.get_current_project v a =
        (some p, { a with current_project := some p }, [VCall.pm_GetCurrentProject pm]) := by
      simp [ResolveAPI.get_current_project, h2, h3]
    have heq : Server.set_current_timeline v a idx =
        ⟨"Invalid timeline index. Valid range is 1-" ++ toString (v.project_GetTimelineCount p) ++ ".",
         { a with current_project := some p },
         [VCall.pm_GetCurrentProject pm, VCall.project_GetTimelineCount p]⟩ := by
      simp [Server.set_current_timeline, ResolveAPI.is_connected, h1, hg, hbad]
    refine ⟨heq, ?_⟩
    rw [heq]
    simp [VCall.isSetCurrentTimeline]
  · intro h1 h2 h3 h4 h5 h6
    obtain ⟨j, hj, hjbad, hsel⟩ := selectClips_error_of_invalid clips idxs h6
    have hg : ResolveAPI.get_media_pool v a =
        (some mp, { a with media_pool := some mp }, [VCall.project_GetMediaPool p]) := by
      simp [ResolveAPI.get_media_pool, h2, h3]
    have heq : Server.create_timeline_from_clips v a name idxs =
        ⟨"Invalid clip index " ++ toString j ++ ". Valid range is 1-" ++ toString clips.length ++ ".",
         { a with media_pool := some mp },
         [VCall.project_GetMediaPool p, VCall.mp_GetCurrentFolder mp,
          VCall.folder_GetClips (FolderTree.node nm clips subs)]⟩ := by
      simp [Server.create_timeline_from_clips, ResolveAPI.is_connected, h1, hg, h4, h5,
        FolderTree.clips, hsel]
    refine ⟨⟨j, hj, hjbad, by rw [heq]⟩, by rw [heq], ?_⟩
    rw [heq]
    simp [VCall.isCreateTimelineFromClips]
  · intro h1 h2 h3
    have hg : ResolveAPI.get_current_project v a =
        (some p, { a with current_project := some p }, [VCall.pm_GetCurrentProject pm]) := by
      simp [ResolveAPI.get_current_project, h2, h3]
    refine ⟨?_, ?_, ?_⟩
    · intro hbad
      have heq : Server.add_fusion_comp_to_clip v a ti tt tri ii =
          ⟨"Invalid timeline index. Valid range is 1-" ++ toString (v.project_GetTimelineCount p) ++ ".",
           { a with current_project := some p },
           [VCall.pm_GetCurrentProject pm, VCall.project_GetTimelineCount p]⟩ := by
        simp [Server.add_fusion_comp_to_clip, ResolveAPI.is_connected, h1, hg, hbad]
      refine ⟨heq, ?_⟩
      rw [heq]
      simp [VCall.isAddFusionComp]
    · intro hlo hhi ht htt hbad
      have hok : ¬(ti < 1 ∨ ti > (v.project_GetTimelineCount p : Int)) := by omega
      have heq : Server.add_fusion_comp_to_clip v a ti tt tri ii =
          ⟨"Invalid track index. Valid range is 1-" ++ toString (v.timeline_GetTrackCount t tt) ++ ".",
           { a with current_project := some p },
           [VCall.pm_GetCurrentProject pm, VCall.project_GetTimelineCount p,
            VCall.project_GetTimelineByIndex p ti, VCall.timeline_GetTrackCount t tt]⟩ := by
        simp [Server.add_fusion_comp_to_clip, ResolveAPI.is_connected, h1, hg, hok, ht, htt, hbad]
      refine ⟨heq, ?_⟩
      rw [heq]
      simp [VCall.isAddFusionComp]
    · intro hlo hhi ht htt htlo hthi hne hbad
      have hok : ¬(ti < 1 ∨ ti > (v.project_GetTimelineCount p : Int)) := by omega
      have hok2 : ¬(tri < 1 ∨ tri > (v.timeline_GetTrackCount t tt : Int)) := by omega
      have heq : Server.add_fusion_comp_to_clip v a ti tt tri ii =
          ⟨"Invalid item index. Valid range is 1-" ++ toString (v.timeline_GetItemsInTrack t tt tri).length ++ ".",
           { a with current_project := some p },
           [VCall.pm_GetCurrentProject pm, VCall.project_GetTimelineCount p,
            VCall.project_GetTimelineByIndex p ti, VCall.timeline_GetTrackCount t tt,
            VCall.timeline_GetItemsInTrack t tt tri]⟩ := by
        simp [Server.add_fusion_comp_to_clip, ResolveAPI.is_connected, h1, hg, hok, ht, htt,
          hok2, hne, hbad]
      refine ⟨heq, ?_⟩
      rw [heq]
      simp [VCall.isAddFusionComp]

/-- C3 witness: the rejections evaluated on a concrete vendor with two
timelines, one track, one item and two clips. -/
theorem C3_index_validation_witness :
    (Server.set_current_timeline vIdx aConn 5).text = "Invalid timeline index. Valid range is 1-2." ∧
    (Server.create_timeline_from_clips vIdx aConn "T" [3]).text = "Invalid clip index 3. Valid range is 1-2." ∧
    (Server.add_fusion_comp_to_clip vIdx aConn 0 "video" 1 1).text = "Invalid timeline index. Valid range is 1-2." ∧
    (Server.add_fusion_comp_to_clip vIdx aConn 1 "video" 9 1).text = "Invalid track index. Valid range is 1-1." ∧
    (Server.add_fusion_comp_to_clip vIdx aConn 1 "video" 1 7).text = "Invalid item index. Valid range is 1-1." := by
  obtain ⟨ha, -⟩ := (C3_index_validation vIdx aConn ⟨0⟩ ⟨0⟩ ⟨0⟩ 5 0 1 1 "video" "F" "T"
    ⟨11⟩ [⟨1⟩, ⟨2⟩] [] [3] ⟨5⟩).1 rfl rfl (by decide) (by decide)
  obtain ⟨⟨j, hj, -, htext⟩, -, -⟩ := (C3_index_validation vIdx aConn ⟨0⟩ ⟨0⟩ ⟨1⟩ 5 0 1 1
    "video" "F" "T" ⟨11⟩ [⟨1⟩, ⟨2⟩] [] [3] ⟨5⟩).2.1 rfl rfl (by decide) rfl
    (by decide) ⟨3, by decide, by decide⟩
  have hj3 : j = 3 := by simpa using hj
  subst hj3
  obtain ⟨hc1, -⟩ := ((C3_index_validation vIdx aConn ⟨0⟩ ⟨0⟩ ⟨0⟩ 5 0 1 1 "video" "F" "T"
    ⟨11⟩ [⟨1⟩, ⟨2⟩] [] [3] ⟨5⟩).2.2 rfl rfl (by decide)).1 (by decide)
  obtain ⟨hc2, -⟩ := ((C3_index_validation vIdx aConn ⟨0⟩ ⟨0⟩ ⟨0⟩ 5 1 9 1 "video" "F" "T"
    ⟨11⟩ [⟨1⟩, ⟨2⟩] [] [3] ⟨5⟩).2.2 rfl rfl (by decide)).2.1 (by decide) (by decide)
    (by decide) (by decide) (by decide)
  obtain ⟨hc3, -⟩ := ((C3_index_validation vIdx aConn ⟨0⟩ ⟨0⟩ ⟨0⟩ 5 1 1 7 "video" "F" "T"
    ⟨11⟩ [⟨1⟩, ⟨2⟩] [] [3] ⟨5⟩).2.2 rfl rfl (by decide)).2.2 (by decide) (by decide)
    (by decide) (by decide) (by decide) (by decide) (by decide) (by decide)
  refine ⟨?_, ?_, ?_, ?_, ?_⟩
  · rw [ha]; decide
  · rw [htext]; decide
  · rw [hc1]; decide
  · rw [hc2]; decide
  · rw [hc3]; decide

/- The six valid page names are already lowercase. -/
theorem mem_valid_pages_toLower {s : String} (h : s ∈ valid_pages) : pyLower s = s := by
  simp [valid_pages] at h
  rcases h with rfl | rfl | rfl | rfl | rfl | rfl <;> decide

/-- C4: open_page delegates to the vendor OpenPage with the lowercased name
exactly when the lowercased input is one of media, edit, fusion, color,
fairlight, deliver, and otherwise returns the invalid-page error without any
vendor call; add_fusion_comp_to_clip (past its earlier guards) accepts exactly
the track types video, audio, subtitle — rejecting any other string with the
invalid-track-type error and no further vendor call — and for an accepted
track type proceeds to query the track count. -/
theorem C4_enum_validation (v : Vendor) (a : ResolveAPI) (r : ResolveHandle)
    (pm : PMHandle) (p : ProjectHandle) (t : TimelineHandle)
    (page tt : String) (ti tri ii : Int) :
    (a.resolve = some r →
      ((pyLower page ∈ valid_pages →
         Server.open_page v a page =
           ⟨"Successfully opened the " ++ pyCapitalize page ++ " page.", a,
            [VCall.resolve_OpenPage r (pyLower page)]⟩) ∧
       (pyLower page ∉ valid_pages →
         Server.open_page v a page =
           ⟨"Invalid page name. Valid pages are: " ++ String.intercalate ", " valid_pages ++ ".",
            a, []⟩))) ∧
    (a.resolve = some r → a.project_manager = some pm →
     v.pm_GetCurrentProject pm = some p →
     1 ≤ ti → ti ≤ (v.project_GetTimelineCount p : Int) →
     v.project_GetTimelineByIndex p ti = some t →
     ((tt ∉ (["video", "audio", "subtitle"] : List String) →
        Server.add_fusion_comp_to_clip v a ti tt tri ii =
          ⟨"Invalid track type. Valid types are \x27video\x27, \x27audio\x27, or \x27subtitle\x27.",
           { a with current_project := some p },
           [VCall.pm_GetCurrentProject pm, VCall.project_GetTimelineCount p,
            VCall.project_GetTimelineByIndex p ti]⟩) ∧
      (tt ∈ (["video", "audio", "subtitle"] : List String) →
        VCall.timeline_GetTrackCount t tt ∈ (Server.add_fusion_comp_to_clip v a ti tt tri ii).calls))) := by
  constructor
  · intro h1
    constructor
    · intro hmem
      have hfix := mem_valid_pages_toLower hmem
      have hop : ResolveAPI.open_page v a (pyLower page) =
          (true, [VCall.resolve_OpenPage r (pyLower page)]) := by
        simp [ResolveAPI.open_page, h1, hfix, hmem]
      simp [Server.open_page, ResolveAPI.is_connected, h1, hmem, hop]
    · intro hmem
      simp [Server.open_page, ResolveAPI.is_connected, h1, hmem]
  · intro h1 h2 h3 hlo hhi ht
    have hg : ResolveAPI.get_current_project v a =
        (some p, { a with current_project := some p }, [VCall.pm_GetCurrentProject pm]) := by
      simp [ResolveAPI.get_current_project, h2, h3]
    have hok : ¬(ti < 1 ∨ ti > (v.project_GetTimelineCount p : Int)) := by omega
    constructor
    · intro hmem
      simp [Server.add_fusion_comp_to_clip, ResolveAPI.is_connected, h1, hg, hok, ht, hmem]
    · intro hmem
      by_cases htr : tri < 1 ∨ tri > (v.timeline_GetTrackCount t tt : Int)
      · simp [Server.add_fusion_comp_to_clip, ResolveAPI.is_connected, h1, hg, hok, ht, hmem, htr]
      · by_cases hit : v.timeline_GetItemsInTrack t tt tri = []
        · simp [Server.add_fusion_comp_to_clip, ResolveAPI.is_connected, h1, hg, hok, ht, hmem,
            htr, hit]
        · by_cases hii : ii < 1 ∨ ii > ((v.timeline_GetItemsInTrack t tt tri).length : Int)
          · simp [Server.add_fusion_comp_to_clip, ResolveAPI.is_connected, h1, hg, hok, ht, hmem,
              htr, hit, hii]
          · cases haf : v.item_AddFusionComp
                ((v.timeline_GetItemsInTrack t tt tri)[ii.toNat - 1]?.getD ⟨0⟩) <;>
              simp [Server.add_fusion_comp_to_clip, ResolveAPI.is_connected, h1, hg, hok, ht,
                hmem, htr, hit, hii, haf]

/-- C4 witness: the enum validations evaluated on a concrete vendor. -/
theorem C4_enum_validation_witness :
    (Server.open_page vIdx aConn "EDIT").text = "Successfully opened the Edit page." ∧
    (Server.open_page vIdx aConn "nope").text = "Invalid page name. Valid pages are: media, edit, fusion, color, fairlight, deliver." ∧
    (Server.add_fusion_comp_to_clip vIdx aConn 1 "subtitles" 1 1).text = "Invalid track type. Valid types are \x27video\x27, \x27audio\x27, or \x27subtitle\x27." ∧
    VCall.timeline_GetTrackCount ⟨5⟩ "video" ∈ (Server.add_fusion_comp_to_clip vIdx aConn 1 "video" 9 1).calls := by
  obtain ⟨hv, hinv⟩ := (C4_enum_validation vIdx aConn ⟨0⟩ ⟨0⟩ ⟨0⟩ ⟨5⟩ "EDIT" "subtitles" 1 1 1).1 rfl
  obtain ⟨-, hinv2⟩ := (C4_enum_validation vIdx aConn ⟨0⟩ ⟨0⟩ ⟨0⟩ ⟨5⟩ "nope" "subtitles" 1 1 1).1 rfl
  obtain ⟨htt, -⟩ := (C4_enum_validation vIdx aConn ⟨0⟩ ⟨0⟩ ⟨0⟩ ⟨5⟩ "EDIT" "subtitles" 1 1 1).2
    rfl rfl (by decide) (by decide) (by decide) (by decide)
  obtain ⟨-, hmemc⟩ := (C4_enum_validation vIdx aConn ⟨0⟩ ⟨0⟩ ⟨0⟩ ⟨5⟩ "EDIT" "video" 1 9 1).2
    rfl rfl (by decide) (by decide) (by decide) (by decide)
  refine ⟨?_, ?_, ?_, ?_⟩
  · rw [hv (by decide)]; decide
  · rw [hinv2 (by decide)]; decide
  · rw [htt (by decide)]
  · exact hmemc (by decide)

/-- C9: when the adapter is connected and the page name is valid,
ResolveAPI.open_page returns True regardless of the vendor result of OpenPage
(which is discarded), so the open_page tool reports success. -/
theorem C9_open_page_ignores_result (v : Vendor) (a : ResolveAPI) (r : ResolveHandle)
    (page : String) (h1 : a.resolve = some r) (h2 : pyLower page ∈ valid_pages) :
    (ResolveAPI.open_page v a page).1 = true ∧
    (ResolveAPI.open_page { v with resolve_OpenPage := fun _ _ => false } a page).1 = true ∧
    (Server.open_page v a page).text = "Successfully opened the " ++ pyCapitalize page ++ " page." := by
  have hfix := mem_valid_pages_toLower h2
  refine ⟨?_, ?_, ?_⟩
  · simp [ResolveAPI.open_page, h1, h2]
  · simp [ResolveAPI.open_page, h1, h2]
  · have hop : ResolveAPI.open_page v a (pyLower page) =
        (true, [VCall.resolve_OpenPage r (pyLower page)]) := by
      simp [ResolveAPI.open_page, h1, hfix, h2]
    simp [Server.open_page, ResolveAPI.is_connected, h1, h2, hop]

/-- C9 witness: even with a vendor whose OpenPage always reports failure, the
adapter returns True and the tool reports success. -/
theorem C9_open_page_ignores_result_witness :
    (ResolveAPI.open_page { vBase with resolve_OpenPage := fun _ _ => false } aConn "edit").1 = true ∧
    (Server.open_page { vBase with resolve_OpenPage := fun _ _ => false } aConn "edit").text = "Successfully opened the Edit page." := by
  have h := C9_open_page_ignores_result { vBase with resolve_OpenPage := fun _ _ => false }
    aConn ⟨0⟩ "edit" rfl (by decide)
  exact ⟨h.1, by rw [h.2.2]; decide⟩

/-- C5 counterexample: on a connected adapter with an open project and a
vendor on which CreateEmptyTimeline succeeds, the create_timeline tool
performs four vendor calls, not exactly one. -/
theorem C5_counterexample_call_count :
    (Server.create_timeline vGood aConn "T").calls.length ≠ 1 := by decide

/-- C5 (amended): each endpoint is a guard sequence followed by vendor calls,
but the number of vendor calls is not one: create_timeline under its
preconditions performs exactly four vendor calls — fetching the current
project, fetching the media pool, CreateEmptyTimeline, and
SetCurrentTimeline. -/
theorem C5_create_timeline_four_calls (v : Vendor) (a : ResolveAPI) (r : ResolveHandle)
    (pm : PMHandle) (p : ProjectHandle) (mp : MediaPoolHandle) (t : TimelineHandle)
    (name : String) (h1 : a.resolve = some r) (h2 : a.project_manager = some pm)
    (h3 : v.pm_GetCurrentProject pm = some p) (h4 : v.project_GetMediaPool p = some mp)
    (h5 : v.mp_CreateEmptyTimeline mp name = some t) :
    Server.create_timeline v a name =
      ⟨"Successfully created timeline \x27" ++ name ++ "\x27.",
       { a with current_project := some p, media_pool := some mp },
       [VCall.pm_GetCurrentProject pm, VCall.project_GetMediaPool p,
        VCall.mp_CreateEmptyTimeline mp name, VCall.project_SetCurrentTimeline p t]⟩ ∧
    (Server.create_timeline v a name).calls.length = 4 := by
  have hg : ResolveAPI.get_current_project v a =
      (some p, { a with current_project := some p }, [VCall.pm_GetCurrentProject pm]) := by
    simp [ResolveAPI.get_current_project, h2, h3]
  have hm : ResolveAPI.get_media_pool v { a with current_project := some p } =
      (some mp, { a with current_project := some p, media_pool := some mp },
       [VCall.project_GetMediaPool p]) := by
    simp [ResolveAPI.get_media_pool, h4]
  have heq : Server.create_timeline v a name =
      ⟨"Successfully created timeline \x27" ++ name ++ "\x27.",
       { a with current_project := some p, media_pool := some mp },
       [VCall.pm_GetCurrentProject pm, VCall.project_GetMediaPool p,
        VCall.mp_CreateEmptyTimeline mp name, VCall.project_SetCurrentTimeline p t]⟩ := by
    rw [h1] at hm
    simp [Server.create_timeline, ResolveAPI.is_connected, h1, hg, hm, h5]
  exact ⟨heq, by rw [heq]; rfl⟩

/-- C5 witness: the four calls on a concrete vendor and state. -/
theorem C5_create_timeline_four_calls_witness :
    (Server.create_timeline vGood aConn "T").calls.length = 4 :=
  (C5_create_timeline_four_calls vGood aConn ⟨0⟩ ⟨0⟩ ⟨1⟩ ⟨11⟩ ⟨3⟩ "T"
    rfl rfl rfl rfl rfl).2

/-- C6 counterexample: on an adapter whose cached current_project (id 1)
differs from the vendor-current project (id 2), get_media_pool returns the
media pool of the stale cached project, not the one a cache-free
(fetch-fresh) adapter would return. -/
theorem C6_counterexample_stale_media_pool :
    (ResolveAPI.get_media_pool vStale aConn).1 ≠ freshMediaPool vStale aConn := by decide

/-- C6 (amended): get_current_project refetches the current-project handle
from the vendor on every call, and get_media_pool refetches the media-pool
handle from the stored current_project handle; but that stored handle itself
(and project_manager, media_storage, fusion) is not refreshed, so an endpoint
that reads the media pool without first refreshing the current project can
act on a stale handle. -/
theorem C6_refresh_behaviour (v : Vendor) (a : ResolveAPI) (pm : PMHandle) (p : ProjectHandle)
    (h2 : a.project_manager = some pm) :
    (ResolveAPI.get_current_project v a).1 = v.pm_GetCurrentProject pm ∧
    ((ResolveAPI.get_current_project v a).2.1).current_project = v.pm_GetCurrentProject pm ∧
    (a.current_project = some p →
      (ResolveAPI.get_media_pool v a).1 = v.project_GetMediaPool p ∧
      ((ResolveAPI.get_media_pool v a).2.1).media_pool = v.project_GetMediaPool p) := by
  refine ⟨by simp [ResolveAPI.get_current_project, h2],
    by simp [ResolveAPI.get_current_project, h2], ?_⟩
  intro hp
  constructor <;> simp [ResolveAPI.get_media_pool, hp]

/-- C6 witness: the refreshed values on the concrete stale state. -/
theorem C6_refresh_behaviour_witness :
    (ResolveAPI.get_current_project vStale aConn).1 = some ⟨2⟩ ∧
    (ResolveAPI.get_media_pool vStale aConn).1 = some ⟨11⟩ := by
  have h := C6_refresh_behaviour vStale aConn ⟨0⟩ ⟨1⟩ rfl
  refine ⟨?_, ?_⟩
  · rw [h.1]; decide
  · rw [(h.2.2 rfl).1]; decide

/-- C7: connection setup selects the scripting-module path by operating
system — Windows appends PROGRAMDATA\Blackmagic Design\DaVinci
Resolve\Support\Developer\Scripting\Modules and attempts one import; macOS
attempts the system-wide /Library path first and attempts the per-user
~/Library path only when the first import fails; Linux appends
/opt/resolve/Developer/Scripting/Modules; and when every import attempt
fails the resolve handle is left null, so is_connected() is False. -/
theorem C7_connect_paths (v : Vendor) (env : ConnEnv) :
    (env.os = OSKind.windows →
      (connect_to_resolve v env).attempts =
        [appendPath env.sysPath0 (windowsScriptModules env.programData)]) ∧
    windowsScriptModules "C:\\ProgramData" =
      "C:\\ProgramData\\Blackmagic Design\\DaVinci Resolve\\Support\\Developer\\Scripting\\Modules" ∧
    (env.os = OSKind.darwin →
      (env.importModule (appendPath env.sysPath0 darwinSystemModules) ≠ ImportResult.importError →
        (connect_to_resolve v env).attempts = [appendPath env.sysPath0 darwinSystemModules]) ∧
      (env.importModule (appendPath env.sysPath0 darwinSystemModules) = ImportResult.importError →
        (connect_to_resolve v env).attempts =
          [appendPath env.sysPath0 darwinSystemModules,
           appendPath (appendPath env.sysPath0 darwinSystemModules) (darwinUserModules env.home)])) ∧
    darwinSystemModules =
      "/Library/Application Support/Blackmagic Design/DaVinci Resolve/Developer/Scripting/Modules" ∧
    darwinUserModules "/Users/u" =
      "/Users/u/Library/Application Support/Blackmagic Design/DaVinci Resolve/Developer/Scripting/Modules" ∧
    (env.os = OSKind.linux →
      (connect_to_resolve v env).attempts = [appendPath env.sysPath0 linuxModules]) ∧
    linuxModules = "/opt/resolve/Developer/Scripting/Modules" ∧
    ((∀ sp ∈ (connect_to_resolve v env).attempts, env.importModule sp = ImportResult.importError) →
      (connect_to_resolve v env).api.resolve = none ∧
      (connect_to_resolve v env).api.is_connected = false) := by
  have hW : env.os = OSKind.windows →
      (connect_to_resolve v env).attempts =
        [appendPath env.sysPath0 (windowsScriptModules env.programData)] := by
    intro h
    cases him : env.importModule (appendPath env.sysPath0 (windowsScriptModules env.programData))
    · simp [connect_to_resolve, h, him]
    · case ok r => cases r <;> simp [connect_to_resolve, h, him]
  have hD : env.os = OSKind.darwin →
      (env.importModule (appendPath env.sysPath0 darwinSystemModules) ≠ ImportResult.importError →
        (connect_to_resolve v env).attempts = [appendPath env.sysPath0 darwinSystemModules]) ∧
      (env.importModule (appendPath env.sysPath0 darwinSystemModules) = ImportResult.importError →
        (connect_to_resolve v env).attempts =
          [appendPath env.sysPath0 darwinSystemModules,
           appendPath (appendPath env.sysPath0 darwinSystemModules) (darwinUserModules env.home)]) := by
    intro h
    constructor
    · intro hne
      cases him : env.importModule (appendPath env.sysPath0 darwinSystemModules)
      · exact absurd him hne
      · case ok r => cases r <;> simp [connect_to_resolve, h, him]
    · intro him
      cases him2 : env.importModule
          (appendPath (appendPath env.sysPath0 darwinSystemModules) (darwinUserModules env.home))
      · simp [connect_to_resolve, h, him, him2]
      · case ok r => cases r <;> simp [connect_to_resolve, h, him, him2]
  have hL : env.os = OSKind.linux →
      (connect_to_resolve v env).attempts = [appendPath env.sysPath0 linuxModules] := by
    intro h
    cases him : env.importModule (appendPath env.sysPath0 linuxModules)
    · simp [connect_to_resolve, h, him]
    · case ok r => cases r <;> simp [connect_to_resolve, h, him]
  have hFail : (∀ sp ∈ (connect_to_resolve v env).attempts,
        env.importModule sp = ImportResult.importError) →
      (connect_to_resolve v env).api.resolve = none ∧
      (connect_to_resolve v env).api.is_connected = false := by
    intro hall
    cases ho : env.os
    case windows =>
      have hsp := hall (appendPath env.sysPath0 (windowsScriptModules env.programData))
        (by rw [hW ho]; simp)
      simp [connect_to_resolve, ho, hsp, ResolveAPI.is_connected, ResolveAPI.nullState]
    case darwin =>
      cases him : env.importModule (appendPath env.sysPath0 darwinSystemModules)
      case importError =>
        have hsp2 := hall
          (appendPath (appendPath env.sysPath0 darwinSystemModules) (darwinUserModules env.home))
          (by rw [(hD ho).2 him]; simp)
        simp [connect_to_resolve, ho, him, hsp2, ResolveAPI.is_connected, ResolveAPI.nullState]
      case ok r =>
        have hsp := hall (appendPath env.sysPath0 darwinSystemModules)
          (by rw [(hD ho).1 (by rw [him]; simp)]; simp)
        rw [him] at hsp
        simp at hsp
    case linux =>
      have hsp := hall (appendPath env.sysPath0 linuxModules) (by rw [hL ho]; simp)
      simp [connect_to_resolve, ho, hsp, ResolveAPI.is_connected, ResolveAPI.nullState]
    case other =>
      simp [connect_to_resolve, ho, ResolveAPI.is_connected, ResolveAPI.nullState]
  exact ⟨hW, by decide, hD, by decide, by decide, hL, by decide, hFail⟩

/-- C7 witness: a macOS environment in which every import fails attempts the
system path, then the user path, and leaves the adapter disconnected. -/
theorem C7_connect_paths_witness :
    (connect_to_resolve vBase envDarwinFail).attempts =
      [[darwinSystemModules], [darwinSystemModules, darwinUserModules "/Users/u"]] ∧
    (connect_to_resolve vBase envDarwinFail).api.resolve = none ∧
    (connect_to_resolve vBase envDarwinFail).api.is_connected = false := by
  have h := C7_connect_paths vBase envDarwinFail
  have hatt := (h.2.2.1 rfl).2 rfl
  have hfail := h.2.2.2.2.2.2.2 (fun sp _ => rfl)
  refine ⟨?_, hfail.1, hfail.2⟩
  rw [hatt]
  decide

theorem enumFrom_length : ∀ (l : List α) (i : Nat), (enumFrom i l).length = l.length
  | [], _ => rfl
  | x :: xs, i => by simp [enumFrom, enumFrom_length xs (i + 1)]

/- Characterisation of the clip-listing loop: starting at position i (with
   1 ≤ i ≤ 11) it numbers the clips until position 10 and then emits the
   "... and N more clips" line. -/
theorem clipInfoLoop_eq (v : Vendor) (n : Nat) :
    ∀ (clips : List ClipHandle) (i : Nat), 1 ≤ i → i ≤ 11 →
      (Server.clipInfoLoop v n clips i).1 =
        if clips.length ≤ 11 - i then numberedClipLines v clips i
        else numberedClipLines v (clips.take (11 - i)) i ++
          ["... and " ++ toString (n - 10) ++ " more clips"]
  | [], i, h1, h2 => by simp [Server.clipInfoLoop, numberedClipLines, enumFrom]
  | c :: rest, i, h1, h2 => by
      by_cases hi : i > 10
      · have hlen : ¬((c :: rest).length ≤ 11 - i) := by simp; omega
        have h11 : 11 - i = 0 := by omega
        simp [Server.clipInfoLoop, hi, hlen, h11, numberedClipLines, enumFrom]
      · have ih := clipInfoLoop_eq v n rest (i + 1) (by omega) (by omega)
        have hsucc : 11 - i = (10 - i) + 1 := by omega
        have hsucc2 : 11 - (i + 1) = 10 - i := by omega
        by_cases hlen : rest.length ≤ 10 - i
        · have hlen3 : rest.length ≤ 11 - (i + 1) := by omega
          simp [Server.clipInfoLoop, hi, ih, hlen3, numberedClipLines, enumFrom]
          rw [if_pos hlen, if_pos (show rest.length + 1 ≤ 11 - i by omega)]
        · have hlen2 : ¬((c :: rest).length ≤ 11 - i) := by simp; omega
          have hlen3 : ¬(rest.length ≤ 11 - (i + 1)) := by omega
          rw [hsucc2] at hlen3
          simp only [Server.clipInfoLoop, hi, ite_false, if_neg hlen2, if_neg hi]
          rw [ih]
          rw [hsucc2] at *
          simp [if_neg hlen, hsucc, numberedClipLines, enumFrom]

/-- C8: the mediapool://current resource reports Clip Count equal to the
number of clips in the current folder and lists at most 10 clips by name:
the listing is the numbered lines for the first min(clip_count, 10) clips,
followed — exactly when clip_count > 10 — by the final line
"... and N more clips" with N = clip_count - 10. -/
theorem C8_clip_listing (v : Vendor) (a : ResolveAPI) (r : ResolveHandle) (p : ProjectHandle)
    (mp : MediaPoolHandle) (nm : String) (clips : List ClipHandle) (subs : List FolderTree)
    (h1 : a.resolve = some r) (h2 : a.current_project = some p)
    (h3 : v.project_GetMediaPool p = some mp)
    (h4 : v.mp_GetCurrentFolder mp = some (FolderTree.node nm clips subs)) :
    (Server.get_current_media_pool_folder v a).text =
      "Current Folder: " ++ nm ++ "\nClip Count: " ++ toString clips.length ++ "\nClips:\n" ++
        (if clips.length = 0 then "No clips in this folder."
         else String.intercalate "\n" ((Server.clipInfoLoop v clips.length clips 1).1)) ∧
    (Server.clipInfoLoop v clips.length clips 1).1 =
      numberedClipLines v (clips.take 10) 1 ++
        (if clips.length > 10 then ["... and " ++ toString (clips.length - 10) ++ " more clips"]
         else []) ∧
    (numberedClipLines v (clips.take 10) 1).length = min clips.length 10 ∧
    (clips.length > 10 →
      ((Server.clipInfoLoop v clips.length clips 1).1).getLast? =
        some ("... and " ++ toString (clips.length - 10) ++ " more clips")) := by
  have hcnt : (if clips = [] then 0 else clips.length) = clips.length := by
    cases clips <;> simp
  have hg : ResolveAPI.get_media_pool v a =
      (some mp, { a with media_pool := some mp }, [VCall.project_GetMediaPool p]) := by
    simp [ResolveAPI.get_media_pool, h2, h3]
  have hshape : (Server.clipInfoLoop v clips.length clips 1).1 =
      numberedClipLines v (clips.take 10) 1 ++
        (if clips.length > 10 then ["... and " ++ toString (clips.length - 10) ++ " more clips"]
         else []) := by
    have h := clipInfoLoop_eq v clips.length clips 1 (by omega) (by omega)
    by_cases hle : clips.length ≤ 10
    · have htake : clips.take 10 = clips := List.take_of_length_le hle
      have hgt : ¬(clips.length > 10) := by omega
      simp only [h, if_pos (show clips.length ≤ 11 - 1 by omega), htake, if_neg hgt,
        List.append_nil]
    · have hgt : clips.length > 10 := by omega
      simp only [h, if_neg (show ¬(clips.length ≤ 11 - 1) by omega), if_pos hgt]
  refine ⟨?_, hshape, ?_, ?_⟩
  · simp [Server.get_current_media_pool_folder, ResolveAPI.is_connected, h1, hg, h4,
      FolderTree.name, FolderTree.clips, hcnt]
  · simp [numberedClipLines, enumFrom_length, Nat.min_comm]
  · intro hgt
    rw [hshape, if_pos hgt]
    exact List.getLast?_concat _

/-- C8 witness: a folder of twelve clips lists ten numbered clips and ends
with "... and 2 more clips". -/
theorem C8_clip_listing_witness :
    (Server.clipInfoLoop v12 clips12.length clips12 1).1.getLast? = some "... and 2 more clips" ∧
    (numberedClipLines v12 (clips12.take 10) 1).length = 10 ∧
    (Server.get_current_media_pool_folder v12 aConn).text =
      "Current Folder: Big\nClip Count: " ++ toString clips12.length ++ "\nClips:\n" ++
        (if clips12.length = 0 then "No clips in this folder."
         else String.intercalate "\n" ((Server.clipInfoLoop v12 clips12.length clips12 1).1)) := by
  have h := C8_clip_listing v12 aConn ⟨0⟩ ⟨1⟩ ⟨11⟩ "Big" clips12 [] rfl rfl rfl rfl
  refine ⟨?_, ?_, h.1⟩
  · rw [h.2.2.2 (by decide)]
    decide
  · rw [h.2.2.1]
    decide

/-- C10: every ResolveAPI query method is total on a null handle — when the
handle it needs (current_project, media_storage, media_pool, fusion, or a
folder argument) is null it returns the neutral value of its return type
(None for object and string getters, False for bool operations, 0 for
get_timeline_count, and the empty list for list-returning methods) without
performing any vendor call. -/
theorem C10_null_handle_total (v : Vendor) (a : ResolveAPI) (i : Int)
    (t : TimelineHandle) (s sp : String) (paths : List String)
    (clips : List ClipHandle) (ft : FolderTree) (inputs : FusionInputs)
    (c : Option CompHandle) :
    (a.current_project = none →
      ResolveAPI.save_project v a = (false, []) ∧
      ResolveAPI.get_project_name v a = (none, []) ∧
      ResolveAPI.get_current_timeline v a = (none, []) ∧
      ResolveAPI.get_timeline_count v a = (0, []) ∧
      ResolveAPI.get_timeline_by_index v a i = (none, []) ∧
      ResolveAPI.set_current_timeline v a t = (false, [])) ∧
    (a.media_storage = none →
      ResolveAPI.get_mounted_volumes v a = ([], []) ∧
      ResolveAPI.get_sub_folders v a sp = ([], []) ∧
      ResolveAPI.get_files v a sp = ([], []) ∧
      ResolveAPI.add_items_to_media_pool v a paths = ([], [])) ∧
    (a.media_pool = none →
      ResolveAPI.create_timeline v a s = (false, []) ∧
      ResolveAPI.get_root_folder v a = (none, []) ∧
      ResolveAPI.get_current_folder v a = (none, []) ∧
      ResolveAPI.add_sub_folder v a ft s = (none, []) ∧
      ResolveAPI.append_to_timeline v a clips = (false, []) ∧
      ResolveAPI.create_timeline_from_clips v a s clips = (none, []) ∧
      ResolveAPI.import_timeline_from_file v a sp = (none, []) ∧
      ResolveAPI.add_items_to_media_pool v a paths = ([], [])) ∧
    (a.fusion = none →
      ResolveAPI.execute_lua v a s = (none, []) ∧
      ResolveAPI.create_fusion_node v a c s inputs = (none, []) ∧
      ResolveAPI.get_current_comp v a = (none, [])) ∧
    (ResolveAPI.get_folder_clips v none = ([], []) ∧
     ResolveAPI.get_folder_name v none = (none, []) ∧
     ResolveAPI.get_folder_sub_folders v none = ([], [])) := by
  refine ⟨?_, ?_, ?_, ?_, ?_⟩
  · intro h
    simp [ResolveAPI.save_project, ResolveAPI.get_project_name,
      ResolveAPI.get_current_timeline, ResolveAPI.get_timeline_count,
      ResolveAPI.get_timeline_by_index, ResolveAPI.set_current_timeline, h]
  · intro h
    refine ⟨?_, ?_, ?_, ?_⟩ <;>
      simp [ResolveAPI.get_mounted_volumes, ResolveAPI.get_sub_folders,
        ResolveAPI.get_files, ResolveAPI.add_items_to_media_pool, h]
  · intro h
    refine ⟨?_, ?_, ?_, ?_, ?_, ?_, ?_, ?_⟩ <;>
      first
      | simp [ResolveAPI.create_timeline, ResolveAPI.get_root_folder,
          ResolveAPI.get_current_folder, ResolveAPI.add_sub_folder,
          ResolveAPI.append_to_timeline, ResolveAPI.create_timeline_from_clips,
          ResolveAPI.import_timeline_from_file, h]
      | (cases hms : a.media_storage <;>
          simp [ResolveAPI.add_items_to_media_pool, h, hms])
  · intro h
    simp [ResolveAPI.execute_lua, ResolveAPI.create_fusion_node,
      ResolveAPI.get_current_comp, h]
  · simp [ResolveAPI.get_folder_clips, ResolveAPI.get_folder_name,
      ResolveAPI.get_folder_sub_folders]

/-- C10 witness: the neutral values on the all-null adapter state. -/
theorem C10_null_handle_total_witness :
    ResolveAPI.save_project vBase ResolveAPI.nullState = (false, []) ∧
    ResolveAPI.get_timeline_count vBase ResolveAPI.nullState = (0, []) ∧
    ResolveAPI.get_mounted_volumes vBase ResolveAPI.nullState = ([], []) ∧
    ResolveAPI.get_root_folder vBase ResolveAPI.nullState = (none, []) ∧
    ResolveAPI.execute_lua vBase ResolveAPI.nullState "x" = (none, []) ∧
    ResolveAPI.get_folder_clips vBase none = ([], []) := by
  have h := C10_null_handle_total vBase ResolveAPI.nullState 1 ⟨0⟩ "x" "p" [] []
    (FolderTree.node "f" [] []) none none
  exact ⟨(h.1 rfl).1, (h.1 rfl).2.2.2.1, (h.2.1 rfl).1, (h.2.2.1 rfl).2.1,
    (h.2.2.2.1 rfl).1, h.2.2.2.2.1⟩
